import Mathlib

/-!
Verification development for the videoGen repository: a shallow embedding of
its scene-record normalization and export pipeline, with theorems checking the
specification's claims against the code.

The repository contains two evolving copies of the director module: the one at
the repository root (`director.py`, wired to `main.py`) and a refactor under
`src/` (`src/director.py`, `src/exporters.py`, `src/generators/gemini_veo.py`).
Definitions below are namespaced accordingly: `Director` embeds the root
`director.py`, `SrcDirector` embeds `src/director.py`, `Exporters` embeds
`src/exporters.py`, and `Veo` embeds `src/generators/gemini_veo.py`.
-/

namespace VideoGen

/-- A Python value, as far as this program manipulates them: JSON-like data
returned by the LLM backends plus the literals in the source. Numbers are
modelled as rationals, covering both Python ints and floats (the program never
depends on their distinction). Dictionary keys are strings, the only kind of
key occurring in the program's data. -/
inductive PyVal where
  | str (s : String)
  | num (q : ℚ)
  | bool (b : Bool)
  | none
  | list (xs : List PyVal)
  | dict (kvs : List (String × PyVal))
  deriving Repr, Inhabited

/-- A Python exception, to the granularity the program distinguishes: the code
under study only ever catches bare `Exception`, so the exception class never
influences control flow.  `typeError` stands for TypeErrors raised by applying
an operation to a value of the wrong shape; `valueError` for the explicit
`raise ValueError` in `_generate_with_groq`. -/
inductive PyErr where
  | typeError
  | valueError
  deriving DecidableEq, Repr

mutual

/-- Model of Python `==` on the values in play (structural equality). -/
def pyEqb : PyVal → PyVal → Bool
  | .str a, .str b => a == b
  | .num a, .num b => a == b
  | .bool a, .bool b => a == b
  | .none, .none => true
  | .list xs, .list ys => pyEqbList xs ys
  | .dict xs, .dict ys => pyEqbKV xs ys
  | _, _ => false

def pyEqbList : List PyVal → List PyVal → Bool
  | [], [] => true
  | x :: xs, y :: ys => pyEqb x y && pyEqbList xs ys
  | _, _ => false

def pyEqbKV : List (String × PyVal) → List (String × PyVal) → Bool
  | [], [] => true
  | (k, v) :: xs, (k2, v2) :: ys => k == k2 && pyEqb v v2 && pyEqbKV xs ys
  | _, _ => false

end

/-- Lookup in a Python dict (`d[k]` / `d.get(k)`), first matching key. -/
def dictGet? (kvs : List (String × PyVal)) (k : String) : Option PyVal :=
  (kvs.find? (fun kv => kv.1 == k)).map (·.2)

/-- Python `k in d` for a dict. -/
def dictContains (kvs : List (String × PyVal)) (k : String) : Bool :=
  kvs.any (fun kv => kv.1 == k)

/-- Python `d.get(k, default)`. -/
def dictGetD (kvs : List (String × PyVal)) (k : String) (d : PyVal) : PyVal :=
  (dictGet? kvs k).getD d

/-- Python `d[k] = v` on a dict: replace the value at an existing key,
otherwise append a new entry (insertion order preserved). -/
def dictSet : List (String × PyVal) → String → PyVal → List (String × PyVal)
  | [], k, v => [(k, v)]
  | (k2, v2) :: rest, k, v =>
      if k2 == k then (k2, v) :: rest else (k2, v2) :: dictSet rest k v

/-- Python substring test `needle in hay` on strings. -/
def strIn (needle hay : String) : Bool :=
  (List.range (hay.data.length + 1)).any
    (fun i => needle.data.isPrefixOf (hay.data.drop i))

/-- Python iteration (`for x in v`): lists yield their elements, dicts their
keys, strings their characters; other values are not iterable (TypeError). -/
def pyIter : PyVal → Except PyErr (List PyVal)
  | .list xs => .ok xs
  | .dict kvs => .ok (kvs.map (fun kv => .str kv.1))
  | .str s => .ok (s.data.map (fun c => .str (String.singleton c)))
  | _ => .error .typeError

/-- Python `k in v` for a string key: key membership on dicts, substring test
on strings, element membership on lists; TypeError otherwise. -/
def pyContainsKey (k : String) : PyVal → Except PyErr Bool
  | .dict kvs => .ok (dictContains kvs k)
  | .str s => .ok (strIn k s)
  | .list xs => .ok (xs.any (pyEqb (.str k)))
  | _ => .error .typeError

/-- Python `v[k] = x` for a string key: only dicts support item assignment
(lists reject string indices, strings are immutable). -/
def pySetItem (k : String) (x : PyVal) : PyVal → Except PyErr PyVal
  | .dict kvs => .ok (.dict (dictSet kvs k x))
  | _ => .error .typeError

/-- Model of the statement `if k not in scene: scene[k] = v`. -/
def defaultStep (k : String) (v : PyVal) (scene : PyVal) : Except PyErr PyVal := do
  let present ← pyContainsKey k scene
  if present then pure scene else pySetItem k v scene

/-- Model of an indexed `for i, scene in enumerate(scenes)` loop whose body
rewrites each element: apply `f` to each element in order, threading the index
and stopping at the first exception. -/
def processList (f : Nat → PyVal → Except PyErr PyVal) :
    Nat → List PyVal → Except PyErr (List PyVal)
  | _, [] => .ok []
  | i, x :: xs => do
      let y ← f i x
      let ys ← processList f (i + 1) xs
      pure (y :: ys)

/-- Reassemble the iterated-over container after the loop: a list is the list
of (possibly mutated) elements; for any other container the loop variables
were fresh objects (dict keys, string characters), so the original container
is returned unchanged, exactly as `return scenes` does in the source. -/
def rebuild (original : PyVal) (items : List PyVal) : PyVal :=
  match original with
  | .list _ => .list items
  | v => v

namespace Director

/-- Loop body of `VirtualDirector._post_process_scenes` (root `director.py`,
lines 183-202): default the six fields `scene_number`, `duration_seconds`,
`transition_type` (`cut` for all but the last scene, `fade` for the last),
`motion_intensity`, `key_elements`, `audio_suggestion` when absent. `n` is
`len(scenes)`, `i` the enumeration index. -/
def processScene (n i : Nat) (scene : PyVal) : Except PyErr PyVal :=
  defaultStep "scene_number" (.num ((i + 1 : ℕ) : ℚ)) scene >>=
  defaultStep "duration_seconds" (.num 5) >>=
  defaultStep "transition_type"
    (.str (if (i : ℤ) < (n : ℤ) - 1 then "cut" else "fade")) >>=
  defaultStep "motion_intensity" (.str "medium") >>=
  defaultStep "key_elements" (.list []) >>=
  defaultStep "audio_suggestion" (.str "Ambient atmosphere")

/-- `VirtualDirector._post_process_scenes` from the root `director.py`
(lines 179-204): iterate the raw value, applying the six defaults to each
element in place, and return the same container. -/
def post_process_scenes (scenes : PyVal) : Except PyErr PyVal := do
  let items ← pyIter scenes
  let items2 ← processList (processScene items.length) 0 items
  pure (rebuild scenes items2)

end Director

namespace SrcDirector

/-- Loop body of `VirtualDirector._post_process_scenes` in the refactored
`src/director.py` (lines 155-157): only `scene_number` and `duration_seconds`
are defaulted. -/
def processScene (i : Nat) (scene : PyVal) : Except PyErr PyVal :=
  defaultStep "scene_number" (.num ((i + 1 : ℕ) : ℚ)) scene >>=
  defaultStep "duration_seconds" (.num 5)

/-- `VirtualDirector._post_process_scenes` from `src/director.py` (lines
150-158): unwrap a `scenes`-keyed mapping envelope, then default
`scene_number` and `duration_seconds` on each element. -/
def post_process_scenes (raw : PyVal) : Except PyErr PyVal :=
  let scenes :=
    match raw with
    | .dict kvs => if dictContains kvs "scenes" then dictGetD kvs "scenes" .none else .dict kvs
    | v => v
  do
    let items ← pyIter scenes
    let items2 ← processList (fun i s => processScene i s) 0 items
    pure (rebuild scenes items2)

end SrcDirector

namespace Director

/-- Envelope handling at the end of `VirtualDirector._generate_with_groq`
(root `director.py`, lines 172-177), applied to the decoded provider output:
unwrap a `scenes`-keyed mapping, pass a list through, and raise `ValueError`
("Unexpected Groq response format") for anything else. -/
def groq_decode (data : PyVal) : Except PyErr PyVal :=
  match data with
  | .dict kvs =>
      if dictContains kvs "scenes" then .ok (dictGetD kvs "scenes" .none)
      else .error .valueError
  | .list xs => .ok (.list xs)
  | _ => .error .valueError

end Director

namespace Director

/-- `VirtualDirector._mock_response` from the root `director.py` (lines
206-281): the fixed literal five-scene fallback sequence returned whenever
generation cannot be performed. Transcribed verbatim from the source
(apostrophes and any braces appear as escape sequences). -/
def mock_response : PyVal :=
  .list [
    .dict [
      ("scene_number", .num 1),
      ("narrative_beat", .str "लड़का छत पर तारों को देख रहा है (Mock Output)"),
      ("visual_prompt", .str "Wide establishing shot: A young Indian boy, approximately 10 years old, wearing a faded blue cotton shirt and dark shorts, sits cross-legged on a terracotta rooftop of an old village house. His body is still, hands resting gently on his knees, head tilted upward at a 45-degree angle, eyes wide with wonder scanning the vast starry sky above, mouth slightly open in quiet amazement, breathing slowly and peacefully. The night sky is deep indigo filled with thousands of twinkling stars forming the Milky Way arc. Behind him, ancient village houses with slanted tile roofs create layered silhouettes against the horizon, a few dim oil lamps glowing softly in distant windows. Moonlight from upper right casts a cool blue-white glow (4500K) across his face and the rooftop, creating subtle shadows. 35mm wide-angle lens, deep focus f/11, 4K resolution, cinematic composition, film grain, dreamy atmosphere, peaceful and serene mood."),
      ("camera_movement", .str "Slow ascending crane shot starting low at rooftop level, rising 2 meters over 5 seconds to establish scene, 35mm lens maintaining deep focus on both boy and expansive sky"),
      ("mood_lighting", .str "Primary moonlight source from upper right at 4500K creating soft blue-white illumination, distant warm village lamp glow at 3000K in background providing ambient fill, cool starlight highlights creating ethereal atmosphere, high contrast shadows defining rooftop edges"),
      ("duration_seconds", .num 6),
      ("transition_type", .str "fade"),
      ("motion_intensity", .str "low"),
      ("key_elements", .list [
          .str "boy on rooftop",
          .str "starry sky with Milky Way",
          .str "layered village silhouettes",
          .str "moonlight atmosphere"]),
      ("audio_suggestion", .str "Gentle night crickets chirping rhythmically, distant village sounds (dog barking faintly, wind chimes), soft ambient music with sparse piano notes building wonder"),
      ("character_details", .str "Raju sits perfectly still in meditation-like posture, his weight balanced evenly, spine straight but relaxed. His eyes slowly travel across the sky left to right, pupils dilated to capture the starlight, occasionally blinking slowly. His chest rises and falls with calm breaths, visible in the cool night air. He sees the infinite cosmos above, the Milky Way\x27s arc painting the heavens, individual stars twinkling like distant lanterns."),
      ("continuity_notes", .str "ESTABLISHES: Nighttime village rooftop setting with moonlit atmosphere and starry sky - this lighting and environment will continue. Sets peaceful mood that will be disrupted by mysterious light arrival. Camera ends in elevated position ready to follow descending light in next scene.")],
    .dict [
      ("scene_number", .num 2),
      ("narrative_beat", .str "आसमान से रहस्यमय रोशनी आती है (Mock Output)"),
      ("visual_prompt", .str "Medium shot transitioning to close-up: The same young Indian boy, approximately 10 years old, wearing a faded blue cotton shirt and dark shorts, still seated cross-legged on the same terracotta rooftop under the same moonlit starry sky. Suddenly, his relaxed expression shifts - eyes widen dramatically, pupils contracting, eyebrows rising, mouth opening in surprise. His body tenses, shoulders pulling back slightly. He tracks something with his eyes, head tilting back further, now at 60-degree angle looking almost straight up. A brilliant white-gold orb of light (6500K) descends rapidly from the star-filled sky above, leaving a shimmering ethereal trail of glowing particles. The orb grows from a pinpoint to soccer-ball size, its intense glow reflecting in the boy\x27s wide eyes, casting new highlights across his face and illuminating the rooftop tiles around him with dancing light patterns. Same village houses visible in background, now partially illuminated by the descending light. The established cool blue moonlight (4500K) mixes with the warm-white orb glow creating dynamic two-tone lighting. 50mm portrait lens, shallow depth of field f/2.8, volumetric light rays, high dynamic range HDR, hyper-realistic texture, 4K cinematic, anamorphic lens flare from bright orb."),
      ("camera_movement", .str "Camera continues from elevated position, quickly tilts up following the boy\x27s eye-line to capture descending light, then whip pans back down and pushes in rapidly to medium close-up of boy\x27s face, 50mm lens with focus rack from background to boy\x27s eyes"),
      ("mood_lighting", .str "Layered lighting combining established moonlight (4500K from upper right) with NEW dramatic descending light orb (intense 6500K white-gold), creating rim lighting on boy\x27s face, strong highlights in his eyes, dual shadows on rooftop, maintaining background village lamp warmth (3000K) for depth"),
      ("duration_seconds", .num 5),
      ("transition_type", .str "eyeline_match"),
      ("motion_intensity", .str "high"),
      ("key_elements", .list [
          .str "descending light orb with trail",
          .str "boy\x27s startled reaction",
          .str "dynamic lighting shift",
          .str "volumetric light rays",
          .str "same rooftop environment"]),
      ("audio_suggestion", .str "Building on previous ambient crickets, add ethereal whooshing sound growing louder as light descends, rising tension music with strings, boy\x27s sharp intake of breath, magical shimmer sound effect"),
      ("character_details", .str "Raju\x27s entire body reacts to the phenomenon - muscles tense, hands grip his knees tightly, fingers curling. His head jerks upward tracking the light\x27s descent, eyes locked on the orb, unblinking from shock and awe. His breathing quickens, visible as faster chest movements, heartbeat racing. He sees the brilliant orb descending directly toward him, its light so bright it creates afterimages, its trail painting streaks across his vision. Fear and wonder battle in his expression - wanting to retreat but unable to look away."),
      ("continuity_notes", .str "CONTINUES: Same rooftop location, maintains moonlit environment, boy in same seated position. CHANGES: Introduces magical light element that adds new light source while preserving established atmosphere. LEADS TO: Light\x27s descent creates anticipation for its arrival/transformation. Camera position shifting closer prepares for intimate fairy reveal next.")],
    .dict [
      ("scene_number", .num 3),
      ("narrative_beat", .str "रोशनी परी में बदलती है (Mock Output)"),
      ("visual_prompt", .str "Slow motion close-up transitioning to medium shot: The bright white-gold orb (6500K) now hovers at arm\x27s length from the young Indian boy, approximately 10 years old, wearing a faded blue cotton shirt and dark shorts, still on the same moonlit terracotta rooftop with starry sky above and village silhouettes behind. The orb pulses with energy, its form becoming fluid and reshaping over 2 seconds. Ethereal particles swirl and coalesce, the intense white light softening to a warm iridescent glow (4800K) with subtle rainbow refractions. The light transforms into the delicate form of a tiny fairy - 15cm tall, with translucent dragonfly-like wings that shimmer with opalescent blues and purples, wearing a flowing dress made of starlight, long flowing hair that seems to emit soft light, large kind eyes, and a gentle smile. She extends her small right hand forward gracefully, fingers spread elegantly, palm up in offering gesture. The boy, expression shifting from fear to wonder, slowly begins raising his trembling right hand, palm open, fingers slightly curved and shaking, eyes fixated on the fairy\x27s glowing form, mouth slightly agape showing amazement, breathing visible in the cool night air as misty puffs. The established cool moonlight (4500K) from upper right remains, now mixing with the fairy\x27s internal warm glow creating magical soft shadows on the rooftop. Village houses still visible in background, maintaining environmental consistency. Anamorphic 2.39:1 aspect ratio, shallow depth of field f/2.2 with beautiful bokeh on background lights, magical particles floating in air catching highlights, 8K ultra detail, cinematic color grade with teal shadows and golden highlights, film grain, dreamlike atmosphere."),
      ("camera_movement", .str "Camera picks up from previous close position, executes graceful slow circular arc tracking shot rotating 120 degrees around the transformation in 4 seconds, then gentle push-in toward fairy and boy\x27s hands as they prepare to touch, anamorphic lens creating horizontal flares from fairy\x27s glow"),
      ("mood_lighting", .str "Complex three-source lighting: primary established moonlight (4500K upper right) maintaining scene, NEW fairy\x27s internal warm iridescent glow (4800K with rainbow refraction) as magical fill light illuminating both characters\x27 faces from center, distant village lamps (3000K) still providing background depth. Soft magical particles catching highlights throughout, creating ethereal atmosphere while maintaining nighttime rooftop consistency."),
      ("duration_seconds", .num 7),
      ("transition_type", .str "motion_match"),
      ("motion_intensity", .str "medium"),
      ("key_elements", .list [
          .str "light-to-fairy transformation with particle effects",
          .str "fairy\x27s extended hand",
          .str "boy\x27s trembling hand rising",
          .str "maintained rooftop environment",
          .str "magical atmospheric glow",
          .str "background bokeh"]),
      ("audio_suggestion", .str "Continuing ambient crickets at lower volume, magical transformation sound with crystalline chimes and soft whoosh, ethereal female vocal harmony emerging, boy\x27s breath quickening with wonder, gentle heartbeat-like bass undertone building emotional connection"),
      ("character_details", .str "Raju\x27s fear melts into pure wonder - his tense muscles gradually relax, though his hand still trembles with nervousness and excitement. His right hand lifts slowly from his knee, elbow bending, forearm rising, palm rotating upward to mirror the fairy\x27s gesture. His fingers quiver slightly, spreading apart then curving gently. His eyes, still wide, now filled with tears of amazement that catch the fairy\x27s light, creating tiny rainbow refractions. His breathing is shallow and quick, chest rising and falling rapidly. He sees the fairy\x27s delicate features, her kind smile, her outstretched hand inviting connection - the most magical sight he\x27s ever witnessed. His head leans forward slightly, drawn to the wonder before him."),
      ("continuity_notes", .str "CONTINUES: Exact same rooftop location and moonlit starry night established in scene 1, environmental consistency maintained throughout. DEVELOPS: Light phenomenon from scene 2 completes transformation to character form, adding new light source that complements rather than replaces established lighting. LEADS TO: Hands approaching creates anticipation for magical touch moment in next scene. Camera\x27s circular motion and push-in creates intimacy and focus on the imminent connection. Lighting setup prepared for magical interaction glow.")],
    .dict [
      ("scene_number", .num 4),
      ("narrative_beat", .str "हाथ मिलने पर जादुई चमक फैलती है (Mock Output)"),
      ("visual_prompt", .str "Extreme close-up of hands: The young Indian boy\x27s right hand (small, slight build, sun-tanned skin) and the tiny fairy\x27s delicate glowing hand (15cm tall fairy, translucent luminescent skin) meet fingertip to fingertip at the exact center of frame. As contact occurs, a brilliant explosion of golden-white magical energy (6000K) radiates outward in expanding concentric waves of light and glittering particles, creating a flash that illuminates everything. The same moonlit (4500K) rooftop environment visible in soft focus behind, same starry sky, village silhouettes maintained. Camera positioned intimately close, capturing the exact moment of connection in ultra-sharp detail - individual fingerprints, skin texture, the fairy\x27s translucent hand structure, particles of light dancing between them. Macro lens perspective, extremely shallow depth of field f/1.4, magical light rays bursting omnidirectionally, volumetric god rays, lens flare from energy burst, 8K hyper-detail, HDR color grading, slow motion capture at 120fps, cinematic anamorphic aspect ratio."),
      ("camera_movement", .str "Camera holds steady push-in from previous shot, reaching extreme close-up exactly as hands touch, micro-vibration from magical energy impact, then sudden rapid pull-back/zoom-out combination creating vertigo effect to show expanding magical energy wave"),
      ("mood_lighting", .str "Dramatic lighting surge: established moonlight (4500K) and fairy glow (4800K) still present but overwhelmed momentarily by intense magical contact energy burst (6000K golden-white), creating omnidirectional lighting filling all shadows, rim lighting on both characters, particles catching highlights, then settling back to combined moonlight + enhanced fairy glow illuminating transformed environment"),
      ("duration_seconds", .num 4),
      ("transition_type", .str "match_cut"),
      ("motion_intensity", .str "high"),
      ("key_elements", .list [
          .str "fingertip contact point",
          .str "energy burst explosion",
          .str "magical particles radiating",
          .str "maintained rooftop setting",
          .str "slow motion impact"]),
      ("audio_suggestion", .str "Building on previous musical theme, massive magical impact sound - crystalline chime explosion with deep resonant bass note, energy wave whoosh expanding, triumphant orchestral swell, crickets momentarily silent from magical force then returning, ethereal choir voices"),
      ("character_details", .str "Raju\x27s trembling hand makes contact - the moment his fingertip touches the fairy\x27s hand, an electric tingle shoots through his entire body. His eyes squeeze shut reflexively from the bright flash, face turning slightly away but hand remaining connected, experiencing pure magical energy coursing through him. His whole body illuminated by the burst, hair slightly lifted by the energy wave, clothes rippling. The tiny fairy maintains her gentle smile, eyes glowing with warm light, her wings spreading wide reflexively, whole form becoming more radiant."),
      ("continuity_notes", .str "CONTINUES: Still on established rooftop (consistent location throughout), same moonlit night atmosphere, same characters. CLIMAXES: The anticipated touch moment delivers magical pay-off. TRANSITIONS: Energy burst creates perfect motivation for scene change - magical transport about to occur. Lighting surge justifies shift to next environment while maintaining source consistency (moon+fairy glow will carry into flight scene).")],
    .dict [
      ("scene_number", .num 5),
      ("narrative_beat", .str "राजू और परी बादलों के ऊपर उड़ रहे हैं (Mock Output)"),
      ("visual_prompt", .str "Wide aerial shot: The young Indian boy, approximately 10 years old, wearing a faded blue cotton shirt and dark shorts, and the tiny glowing fairy (15cm tall with iridescent translucent wings) are now floating 500 meters above the same village, soaring gracefully through the night sky among wisping clouds. They hold hands - Raju\x27s larger hand gently clasping the fairy\x27s tiny glowing hand. His body is suspended horizontally in flight position, his free left arm extended outward for balance, legs bent naturally, hair and clothes rippling in the wind, face showing pure joy and exhilaration with mouth open in delighted laughter, eyes wide scanning the incredible view below. The fairy\x27s wings beat rapidly creating soft light pulse, her dress flowing, guiding their flight path upward and forward. Below them, the entire village is laid out like a miniature model - the same terracotta rooftops (recognizable as where they were), winding dirt paths, temple spires, scattered oil lamp lights creating warm dots of 3000K light, agricultural fields forming geometric patterns, all bathed in the same moonlight (4500K) from above that established the scene. The starry sky surrounds them on all sides, Milky Way arc overhead, thin wispy clouds at their altitude catching moonlight creating silver-white ethereal textures. Continuing fairy\x27s warm glow (4800K) illuminates both characters from their joined hands. Ultra-wide 24mm lens, deep focus f/8 capturing vast scale, 4K cinematic resolution, anamorphic 2.39:1, dramatic depth with multiple distance layers, color graded with cool blues and warm accent lights, film grain, magical atmosphere blending wonder and beauty."),
      ("camera_movement", .str "Camera executes sweeping crane shot ascending and pulling back simultaneously revealing the flight, then transitions to smooth aerial tracking shot flying alongside them at same speed and altitude, 24mm wide lens maintaining environmental scope, gentle floating motion"),
      ("mood_lighting", .str "Consistent nighttime lighting: primary moonlight (4500K) from above illuminating clouds and village below maintaining established night atmosphere, fairy\x27s warm iridescent glow (4800K) lighting both characters\x27 faces from their joined hands, village oil lamps below (3000K) creating depth and reference to origin, starlight providing ambient fill, all sources harmonized into magical nighttime flight scene"),
      ("duration_seconds", .num 8),
      ("transition_type", .str "dissolve"),
      ("motion_intensity", .str "medium"),
      ("key_elements", .list [
          .str "boy and fairy flying in night sky",
          .str "aerial view of village far below (origin location)",
          .str "moonlit clouds",
          .str "starry sky surrounding",
          .str "joined hands glowing",
          .str "wind-swept movement"]),
      ("audio_suggestion", .str "Wind rushing past creating whoosh sound, continuing magical orchestral theme now triumphant and soaring, boy\x27s delighted laughter, fairy\x27s wings creating soft rhythmic flutter sound, distant village sounds from far below, ethereal choir building to emotional peak"),
      ("character_details", .str "Raju experiences pure unbridled joy - no more fear, only wonder and excitement. His body relaxes into the flight, trusting the fairy\x27s magic. His head turns left and right taking in every detail - looking down at the tiny village below (his home now so small!), looking up at the infinite stars above (now so close!), looking at the fairy with gratitude and amazement. His free hand reaches out feeling the cool night wind between his fingers. His laughter is genuine, breath visible in the cold high-altitude air. He sees the world transformed - perspectives shifted, the impossible made real, magic proven true."),
      ("continuity_notes", .str "CONTINUES & ELEVATES: Literally elevates from established rooftop location (now visible far below maintaining spatial geography), same moonlit starry night (lighting consistency maintained, just perspective changed), same characters with consistent appearance. RESOLVES: Completes the story arc from earthbound wonder to magical flight transcendence. Environmental consistency maintained through recognizable village layout, same lighting sources (moon + fairy glow), same nighttime atmosphere - just viewed from above now. Scene could continue or conclude here with fade.")]]

end Director

namespace SrcDirector

/-- `VirtualDirector._mock_response` from `src/director.py` (lines 160-169):
the refactored module's single-scene fallback literal. -/
def mock_response : PyVal :=
  .list [
    .dict [
      ("scene_number", .num 1),
      ("narrative_beat", .str "Intro (Mock)"),
      ("visual_prompt", .str "Cinematic shot of a protagonist standing in silence. 4k."),
      ("duration_seconds", .num 5)]]

/-- `VirtualDirector.process_script` from `src/director.py` (lines 89-112).
The backend call is external: its outcome (decoded JSON value, or the
exception the dispatch/decoding raised) enters as `dispatch`. `hasClient`
models `self.client` being set. The try block covers both the dispatch and
`_post_process_scenes`; any exception degrades to the mock literal, so the
function is total. -/
def process_script (hasClient : Bool) (dispatch : Except PyErr PyVal) : PyVal :=
  if !hasClient then mock_response
  else
    match dispatch >>= post_process_scenes with
    | .ok scenes => scenes
    | .error _ => mock_response

end SrcDirector

namespace Director

/-- `VirtualDirector.process_script` from the root `director.py` (lines
106-143), modelled the same way as the refactored variant: the provider
dispatch (`_generate_with_groq` / `_generate_with_gemini`) is external and
enters as its outcome; `hasModel` models `self.model` being set. The
`script_text` argument only feeds the prompt sent to the backend and
`_mock_response` ignores it, so it does not appear in the model. -/
def process_script (hasModel : Bool) (dispatch : Except PyErr PyVal) : PyVal :=
  if !hasModel then mock_response
  else
    match dispatch >>= post_process_scenes with
    | .ok scenes => scenes
    | .error _ => mock_response

end Director

/-- The effect of `if k not in scene: scene[k] = v` on a dict. -/
def addDef (k : String) (v : PyVal) (d : List (String × PyVal)) :
    List (String × PyVal) :=
  if dictContains d k then d else dictSet d k v


namespace Director

/-- The six defaulted keys of the root normalizer. -/
def sixDefaulted : List String :=
  ["scene_number", "duration_seconds", "transition_type",
   "motion_intensity", "key_elements", "audio_suggestion"]

/-- The pure effect of the root loop body on one scene dict. -/
def normScene (n i : Nat) (d : List (String × PyVal)) : List (String × PyVal) :=
  addDef "audio_suggestion" (.str "Ambient atmosphere")
    (addDef "key_elements" (.list [])
      (addDef "motion_intensity" (.str "medium")
        (addDef "transition_type"
          (.str (if (i : ℤ) < (n : ℤ) - 1 then "cut" else "fade"))
          (addDef "duration_seconds" (.num 5)
            (addDef "scene_number" (.num ((i + 1 : ℕ) : ℚ)) d)))))

/-- The pure effect of the whole root loop on a list of scene dicts,
starting at enumeration index `i` with `n = len(scenes)`. -/
def normListFrom (n i : Nat) : List (List (String × PyVal)) → List (List (String × PyVal))
  | [] => []
  | d :: rest => normScene n i d :: normListFrom n (i + 1) rest

/-- The pure value of the root normalizer on a list of scene dicts. -/
def normList (ds : List (List (String × PyVal))) : List (List (String × PyVal)) :=
  normListFrom ds.length 0 ds

end Director

/-- The fields the Statistics Calculator and the Exporter consume (spec sect. 3
and the `.get` calls in `src/exporters.py` / `main.py`). -/
def requiredFields : List String :=
  ["scene_number", "visual_prompt", "duration_seconds", "transition_type",
   "motion_intensity", "key_elements", "audio_suggestion"]

/-- Does every record of a scene-sequence value carry all the listed keys
(and is the value in fact a list of dicts)? -/
def allScenesHaveFields (v : PyVal) (ks : List String) : Bool :=
  match v with
  | .list xs => xs.all (fun s =>
      match s with
      | .dict d => ks.all (fun k => dictContains d k)
      | _ => false)
  | _ => false

/-- A scene record as the exporter and statistics code receive it: a Python
dict (these functions call `.keys()`, `.items()`, `.get()` on each scene, so
only dicts flow here). -/
abbrev Scene : Type := List (String × PyVal)

/-- Python truthiness of a value (`if x:`). -/
def pyTruthy : PyVal → Bool
  | .str s => !s.isEmpty
  | .num q => !(q == 0)
  | .bool b => b
  | .none => false
  | .list xs => !xs.isEmpty
  | .dict kvs => !kvs.isEmpty

mutual

/-- Recursive core of Python `str()`/`repr()` on the values in play (used
below container level). A number renders as a Python int when its denominator
is 1 — the only numeric values the program's own literals and defaults
produce; other rationals render as `num/den`, a stand-in for Python's float
formatting, which this model does not reproduce digit for digit. -/
def pyStrRec : Bool → PyVal → String
  | asRepr, .str s => if asRepr then "\x27" ++ s ++ "\x27" else s
  | _, .num q =>
      if q.den = 1 then toString q.num
      else toString q.num ++ "/" ++ toString q.den
  | _, .bool b => cond b "True" "False"
  | _, .none => "None"
  | _, .list xs => "[" ++ pyStrJoin xs ++ "]"
  | _, .dict kvs => "\x7b" ++ pyStrKV kvs ++ "\x7d"

def pyStrJoin : List PyVal → String
  | [] => ""
  | [x] => pyStrRec true x
  | x :: y :: xs => pyStrRec true x ++ ", " ++ pyStrJoin (y :: xs)

def pyStrKV : List (String × PyVal) → String
  | [] => ""
  | [(k, v)] => pyStrRec true (.str k) ++ ": " ++ pyStrRec true v
  | (k, v) :: kv2 :: kvs =>
      pyStrRec true (.str k) ++ ": " ++ pyStrRec true v ++ ", " ++ pyStrKV (kv2 :: kvs)

end

/-- Model of Python `str()` (with `asRepr`, `repr()`): one explicit top layer
over the recursive core, case for case the same function. -/
def pyStrCore (asRepr : Bool) (v : PyVal) : String :=
  match v with
  | .str s => if asRepr then "\x27" ++ s ++ "\x27" else s
  | .num q =>
      if q.den = 1 then toString q.num
      else toString q.num ++ "/" ++ toString q.den
  | .bool b => cond b "True" "False"
  | .none => "None"
  | .list xs => "[" ++ pyStrJoin xs ++ "]"
  | .dict kvs => "\x7b" ++ pyStrKV kvs ++ "\x7d"

/-- Python `str()`. -/
def pyStr : PyVal → String := pyStrCore false

/-- Code-point comparison of strings, as Python `<=` on `str` compares them
(lexicographic on the sequences of code points). -/
def charListLeb : List Char → List Char → Bool
  | [], _ => true
  | _ :: _, [] => false
  | a :: as, b :: bs =>
      if a.val.toNat < b.val.toNat then true
      else if b.val.toNat < a.val.toNat then false
      else charListLeb as bs

def pyStrLeb (a b : String) : Bool := charListLeb a.data b.data

/-- Python `<=` on strings, as a relation. -/
def strLe (a b : String) : Prop := pyStrLeb a b = true

instance : DecidableRel strLe :=
  fun a b => inferInstanceAs (Decidable (pyStrLeb a b = true))

/-- Stable ascending sort, modelling Python `sorted` on strings (on the
distinct elements of a set, any correct ascending sort yields the same
list Python produces). -/
def sortStrings (l : List String) : List String := List.insertionSort strLe l

/-- Python numeric coercion as `sum` uses it: ints/floats (here `.num`) and
bools participate in arithmetic, everything else raises a TypeError. -/
def toNum : PyVal → Except PyErr ℚ
  | .num q => .ok q
  | .bool b => .ok (if b then 1 else 0)
  | _ => .error .typeError

namespace Exporters

/-- The result record of `calculate_statistics` (src/exporters.py lines
191-198), keeping its six entries as fields. Distribution keys are the raw
scene values (Python dict keys); counts are their occurrence numbers in
first-occurrence order. -/
structure Stats where
  total_scenes : Nat
  total_duration_seconds : ℚ
  total_duration_minutes : ℚ
  average_scene_duration : ℚ
  motion_distribution : List (PyVal × Nat)
  transition_distribution : List (PyVal × Nat)

/-- `counts[k] = counts.get(k, 0) + 1` over an insertion-ordered mapping. -/
def bumpCount (counts : List (PyVal × Nat)) (k : PyVal) : List (PyVal × Nat) :=
  if counts.any (fun c => pyEqb c.1 k) then
    counts.map (fun c => if pyEqb c.1 k then (c.1, c.2 + 1) else c)
  else counts ++ [(k, 1)]

/-- Python dict keys must be hashable: lists and dicts raise a TypeError. -/
def hashableKey : PyVal → Except PyErr PyVal
  | .list _ => .error .typeError
  | .dict _ => .error .typeError
  | v => .ok v

/-- The distribution-counting loop of `calculate_statistics` (lines 184-189):
one pass over the scenes, bumping the `motion_intensity` and
`transition_type` counters (default key when absent: `"unknown"`). -/
def distLoop : List Scene → List (PyVal × Nat) → List (PyVal × Nat) →
    Except PyErr (List (PyVal × Nat) × List (PyVal × Nat))
  | [], motion, transition => .ok (motion, transition)
  | s :: rest, motion, transition => do
      let mk ← hashableKey (dictGetD s "motion_intensity" (.str "unknown"))
      let tk ← hashableKey (dictGetD s "transition_type" (.str "unknown"))
      distLoop rest (bumpCount motion mk) (bumpCount transition tk)

/-- The accumulation `sum(s.get('duration_seconds', 5) for s in scenes)`
(used by `calculate_statistics`, `to_json` and `to_markdown`): one pass over
the scenes, coercing each duration to a number. -/
def sumDurations : List Scene → Except PyErr ℚ
  | [] => .ok 0
  | s :: rest => do
      let d ← toNum (dictGetD s "duration_seconds" (.num 5))
      let r ← sumDurations rest
      pure (d + r)

/-- `calculate_statistics` from `src/exporters.py` (lines 174-198): the empty
input returns the empty dict (modelled `none`); otherwise the six statistics
are computed, `duration_seconds` defaulting to 5 where absent. -/
def calculate_statistics (scenes : List Scene) : Except PyErr (Option Stats) :=
  if scenes.isEmpty then .ok Option.none
  else do
    let total ← sumDurations scenes
    let (motion, transition) ← distLoop scenes [] []
    .ok (some
      { total_scenes := scenes.length
        total_duration_seconds := total
        total_duration_minutes := total / 60
        average_scene_duration := total / (scenes.length : ℚ)
        motion_distribution := motion
        transition_distribution := transition })

/-- The fixed preferred column ordering of `SceneExporter.to_csv`
(`ordered_fields`, lines 41-44). -/
def orderedFields : List String :=
  ["scene_number", "narrative_beat", "visual_prompt",
   "camera_movement", "mood_lighting", "duration_seconds",
   "transition_type", "motion_intensity", "key_elements",
   "audio_suggestion"]

/-- The distinct keys across all scenes, in first-occurrence order (the
membership content of the `fieldnames` set built in lines 36-38). -/
def keysUnion (scenes : List Scene) : List String :=
  (scenes.flatMap (fun s => s.map (·.1))).dedup

/-- The final `fieldnames` list of `to_csv` (lines 47-48): preferred fields
that occur, in preferred order, then all remaining keys sorted. -/
def fieldnames (scenes : List Scene) : List String :=
  let ks := keysUnion scenes
  (orderedFields.filter (fun f => ks.contains f)) ++
    ((sortStrings ks).filter (fun f => !orderedFields.contains f))

/-- The per-scene row conversion of `to_csv` (lines 56-61): list values are
flattened to a comma-joined string of their elements; others pass through. -/
def convertValue : PyVal → PyVal
  | .list xs => .str (String.intercalate ", " (xs.map pyStr))
  | v => v

def convertRow (s : Scene) : Scene := s.map (fun kv => (kv.1, convertValue kv.2))

/-- How the csv writer renders one cell: `None` becomes the empty string,
anything else its `str()`. -/
def csvCell : PyVal → String
  | .none => ""
  | v => pyStr v

/-- `csv.DictWriter.writerow`: raises ValueError when the row holds a key
outside `fieldnames` (the default `extrasaction`), and renders one cell per
field name, the empty string for fields absent from the row (the default
`restval=None` rendered by the writer as an empty cell). -/
def writerow (fns : List String) (row : Scene) : Except PyErr (List String) :=
  if row.all (fun kv => fns.contains kv.1) then
    .ok (fns.map (fun f => match dictGet? row f with
      | some v => csvCell v
      | Option.none => ""))
  else .error .valueError

/-- The cells one scene contributes to the table: one cell per field name,
in header order — the converted value's rendering when the scene has the
field, the empty string when it does not. -/
def rowCells (fns : List String) (s : Scene) : List String :=
  fns.map (fun f =>
    match dictGet? (convertRow s) f with
    | some v => csvCell v
    | Option.none => "")

/-- The row-writing loop of `to_csv` (lines 54-62): convert and write one
row per scene, in order. -/
def rowsLoop (fns : List String) : List Scene → Except PyErr (List (List String))
  | [] => .ok []
  | s :: rest => do
      let r ← writerow fns (convertRow s)
      let rs ← rowsLoop fns rest
      pure (r :: rs)

/-- `SceneExporter.to_csv` from `src/exporters.py` (lines 30-62), modelled by
the data it writes: `none` when the scene list is empty (the early `return`
writes no file at all), otherwise the header row and one converted row per
scene. -/
def to_csv (scenes : List Scene) : Except PyErr (Option (List String × List (List String))) :=
  if scenes.isEmpty then .ok Option.none
  else do
    let fns := fieldnames scenes
    let rows ← rowsLoop fns scenes
    .ok (some (fns, rows))

/-- Python `{**base, **extra}`: keys of `base` keep their position, values
overridden by `extra` where both occur; keys only in `extra` are appended in
`extra` order. -/
def dictMerge (base extra : List (String × PyVal)) : List (String × PyVal) :=
  base.map (fun kv => (kv.1, (dictGet? extra kv.1).getD kv.2)) ++
    extra.filter (fun kv => !dictContains base kv.1)

/-- `SceneExporter.to_json` from `src/exporters.py` (lines 64-77), modelled by
the document value it serializes: a metadata block (generation timestamp,
scene count, total duration, then the caller metadata spread over it) plus
the scene sequence verbatim under `"scenes"`. -/
def to_json_doc (scenes : List Scene) (metadata : List (String × PyVal))
    (now : String) : Except PyErr PyVal := do
  let total ← sumDurations scenes
  .ok (.dict
    [("metadata", .dict (dictMerge
        [("generated_at", .str now),
         ("total_scenes", .num (scenes.length : ℚ)),
         ("total_duration_seconds", .num total)] metadata)),
     ("scenes", .list (scenes.map .dict))])

/-- Re-loading the structured export: `json.load` gives the document back
(the Python json codec round-trips these values), and the caller reads its
`"scenes"` entry, as `main.py` lines 128-129 do. -/
def loadScenes (doc : PyVal) : Option PyVal :=
  match doc with
  | .dict kvs => dictGet? kvs "scenes"
  | _ => Option.none

end Exporters

namespace Exporters

/-- Python `"{:.1f}".format` on the durations: one decimal place. Rounding is
modelled with round-half-up on nonnegative values (Python rounds half to
even; the two agree except on exact .x5 halves, which no claim exercises). -/
def fmt1 (q : ℚ) : String :=
  let t : ℤ := round (q * 10)
  toString (t / 10) ++ "." ++ toString (t % 10)

/-- Python `str.title()` on the metadata keys after `.replace('_', ' ')`:
each space-separated word gets an upper-case first character and lower-case
rest (faithful for the alphabetic key names occurring here). -/
def titleWord (w : String) : String :=
  match w.data with
  | [] => ""
  | c :: cs => String.mk (c.toUpper :: cs.map Char.toLower)

def pyTitle (s : String) : String :=
  String.intercalate " " ((s.splitOn " ").map titleWord)

/-- The per-scene section of `SceneExporter.to_markdown` (lines 103-150). -/
def markdownScene (s : Scene) : List String :=
  ["## Scene " ++ pyStr (dictGetD s "scene_number" (.str "?"))] ++
  (if dictContains s "narrative_beat" then
    ["**Beat:** " ++ pyStr (dictGetD s "narrative_beat" .none), ""] else []) ++
  (if dictContains s "visual_prompt" then
    ["### Visual Prompt", "> " ++ pyStr (dictGetD s "visual_prompt" .none), ""] else []) ++
  ["| Aspect | Details |", "|--------|---------|"] ++
  (if dictContains s "camera_movement" then
    ["| 🎥 Camera | " ++ pyStr (dictGetD s "camera_movement" .none) ++ " |"] else []) ++
  (if dictContains s "mood_lighting" then
    ["| 💡 Lighting | " ++ pyStr (dictGetD s "mood_lighting" .none) ++ " |"] else []) ++
  (if dictContains s "duration_seconds" then
    ["| ⏱️ Duration | " ++ pyStr (dictGetD s "duration_seconds" .none) ++ " seconds |"] else []) ++
  (if dictContains s "transition_type" then
    ["| 🔀 Transition | " ++ pyStr (dictGetD s "transition_type" .none) ++ " |"] else []) ++
  (if dictContains s "motion_intensity" then
    ["| 🎬 Motion | " ++ pyStr (dictGetD s "motion_intensity" .none) ++ " |"] else []) ++
  (if dictContains s "audio_suggestion" then
    ["| 🔊 Audio | " ++ pyStr (dictGetD s "audio_suggestion" .none) ++ " |"] else []) ++
  [""] ++
  (if dictContains s "key_elements" && pyTruthy (dictGetD s "key_elements" .none) then
    ["**Key Elements:**"] ++
    (match dictGetD s "key_elements" .none with
     | .list xs => xs.map (fun e => "- " ++ pyStr e)
     | v => ["- " ++ pyStr v]) ++ [""]
   else []) ++
  ["---", ""]

/-- `SceneExporter.to_markdown` from `src/exporters.py` (lines 79-154),
modelled by the text it writes: header block, optional generation-settings
block, then one section per scene, joined with newlines. -/
def to_markdown_text (scenes : List Scene) (metadata : List (String × PyVal))
    (now : String) : Except PyErr String := do
  let total ← sumDurations scenes
  let header :=
    ["# Master Production Sheet", "",
     "**Generated:** " ++ now,
     "**Total Scenes:** " ++ toString scenes.length,
     "**Estimated Duration:** " ++ pyStr (.num total) ++ " seconds (" ++
       fmt1 (total / 60) ++ " minutes)"] ++
    (if !metadata.isEmpty then
      ["", "## Generation Settings"] ++
      metadata.map (fun kv =>
        "- **" ++ pyTitle ((kv.1.replace "_" " ")) ++ ":** " ++ pyStr kv.2)
     else []) ++
    ["", "---", ""]
  .ok (String.intercalate "\n" (header ++ scenes.flatMap markdownScene))

/-- One produced file, by content kind. -/
inductive FileContent where
  | csvFile (header : List String) (rows : List (List String))
  | jsonFile (doc : PyVal)
  | textFile (content : String)

/-- The file writes `to_csv` performs: none at all on an empty scene list. -/
def to_csv_writes (scenes : List Scene) (path : String) :
    Except PyErr (List (String × FileContent)) := do
  match ← to_csv scenes with
  | Option.none => pure []
  | some (fns, rows) => pure [(path, .csvFile fns rows)]

def to_json_writes (scenes : List Scene) (metadata : List (String × PyVal))
    (now : String) (path : String) : Except PyErr (List (String × FileContent)) := do
  let doc ← to_json_doc scenes metadata now
  pure [(path, .jsonFile doc)]

def to_markdown_writes (scenes : List Scene) (metadata : List (String × PyVal))
    (now : String) (path : String) : Except PyErr (List (String × FileContent)) := do
  let txt ← to_markdown_text scenes metadata now
  pure [(path, .textFile txt)]

/-- `SceneExporter.export_all` from `src/exporters.py` (lines 156-171): run
the three exports against `<base>.csv`, `<base>.json`, `<base>.md` in that
order and return the fixed mapping of format name to path — the mapping is
built unconditionally, independent of which files were actually written. -/
def export_all (scenes : List Scene) (metadata : List (String × PyVal))
    (now : String) (base : String) :
    Except PyErr (List (String × FileContent) × List (String × String)) := do
  let w1 ← to_csv_writes scenes (base ++ ".csv")
  let w2 ← to_json_writes scenes metadata now (base ++ ".json")
  let w3 ← to_markdown_writes scenes metadata now (base ++ ".md")
  pure (w1 ++ w2 ++ w3,
    [("csv", base ++ ".csv"), ("json", base ++ ".json"), ("markdown", base ++ ".md")])

end Exporters

namespace Veo

/-- Outcome of one external Veo API call for a scene, as
`GeminiVeoGenerator.generate_scene_video` distinguishes them: a payload of
video bytes (possibly empty — Python treats `b""` as falsy and reports
failure), a response from which no bytes could be extracted, or an exception
raised during the call (network error, API error). -/
inductive ApiOutcome where
  | payload (bytes : List Nat)
  | noBytes
  | apiError

/-- `GeminiVeoGenerator.generate_scene_video` from
`src/generators/gemini_veo.py` (lines 28-70), modelled by the path it
returns: `none` without a configured client; otherwise the output path
`output_dir/scene_<scene_number>.mp4` when the (external) API call yields a
non-empty payload that is then written there, `none` on any per-scene
failure. `api` is the external call's outcome per scene. -/
def generate_scene_video (hasClient : Bool) (api : Scene → ApiOutcome)
    (outputDir : String) (scene : Scene) : Option String :=
  if !hasClient then Option.none
  else
    let sceneNumber := dictGetD scene "scene_number" (.num 1)
    let outputPath := outputDir ++ "/scene_" ++ pyStr sceneNumber ++ ".mp4"
    match api scene with
    | .payload bytes => if bytes.isEmpty then Option.none else some outputPath
    | .noBytes => Option.none
    | .apiError => Option.none

/-- `GeminiVeoGenerator.generate_batch` from `src/generators/gemini_veo.py`
(lines 72-81): process the scenes in order, appending the returned path when
a scene succeeds and silently skipping it otherwise. The loop in the root
`video_generator.py` (lines 188-202) has the same structure. -/
def generate_batch (hasClient : Bool) (api : Scene → ApiOutcome)
    (outputDir : String) : List Scene → List String
  | [] => []
  | scene :: rest =>
      match generate_scene_video hasClient api outputDir scene with
      | some path => path :: generate_batch hasClient api outputDir rest
      | Option.none => generate_batch hasClient api outputDir rest

end Veo

section DictLemmas

theorem dictGet?_dictSet_self (d : List (String × PyVal)) (k : String) (v : PyVal) :
    dictGet? (dictSet d k v) k = some v := by
  induction d with
  | nil => simp [dictSet, dictGet?]
  | cons kv rest ih =>
      obtain ⟨k2, v2⟩ := kv
      by_cases h : k2 = k
      · subst h; simp [dictSet, dictGet?]
      · simp only [dictSet, beq_iff_eq, if_neg h]
        simpa [dictGet?, h] using ih

theorem dictGet?_dictSet_ne (d : List (String × PyVal)) (k k2 : String) (v : PyVal)
    (h : k2 ≠ k) : dictGet? (dictSet d k v) k2 = dictGet? d k2 := by
  induction d with
  | nil =>
      simp only [dictSet, dictGet?, List.find?]
      have : (k == k2) = false := by simp [beq_iff_eq]; exact fun e => h e.symm
      simp [this]
  | cons kv rest ih =>
      obtain ⟨ka, va⟩ := kv
      by_cases hk : ka = k
      · subst hk
        simp only [dictSet, beq_self_eq_true, if_pos]
        have : (ka == k2) = false := by
          simp only [beq_eq_false_iff_ne, ne_eq]
          exact fun e => h e.symm
        simp [dictGet?, List.find?, this]
      · have hkf : (ka == k) = false := by simp [beq_iff_eq, hk]
        simp only [dictSet, hkf, Bool.false_eq_true, if_neg]
        by_cases hk2 : ka = k2
        · subst hk2; simp [dictGet?, List.find?]
        · have hf : (ka == k2) = false := by simp [beq_iff_eq, hk2]
          simp only [dictGet?, List.find?, hf]
          exact ih

theorem dictContains_eq_isSome (d : List (String × PyVal)) (k : String) :
    dictContains d k = (dictGet? d k).isSome := by
  induction d with
  | nil => simp [dictContains, dictGet?]
  | cons kv rest ih =>
      by_cases h : kv.1 = k
      · simp [dictContains, dictGet?, List.find?, h]
      · have hf : (kv.1 == k) = false := by simp [beq_iff_eq, h]
        simp only [dictContains, List.any_cons, hf, Bool.false_or, dictGet?, List.find?]
        exact ih

theorem defaultStep_dict (k : String) (v : PyVal) (d : List (String × PyVal)) :
    defaultStep k v (.dict d) = .ok (.dict (addDef k v d)) := by
  unfold defaultStep addDef
  rw [show pyContainsKey k (.dict d) = .ok (dictContains d k) from rfl]
  cases hc : dictContains d k
  · rfl
  · rfl

theorem dictContains_addDef_self (k : String) (v : PyVal) (d : List (String × PyVal)) :
    dictContains (addDef k v d) k = true := by
  unfold addDef
  by_cases h : dictContains d k
  · rw [if_pos h]; exact h
  · rw [if_neg h, dictContains_eq_isSome, dictGet?_dictSet_self]
    rfl

theorem dictContains_addDef_mono (k k2 : String) (v : PyVal) (d : List (String × PyVal))
    (h : dictContains d k2 = true) : dictContains (addDef k v d) k2 = true := by
  unfold addDef
  by_cases hc : dictContains d k
  · rw [if_pos hc]; exact h
  · rw [if_neg hc]
    by_cases hk : k2 = k
    · subst hk
      rw [dictContains_eq_isSome, dictGet?_dictSet_self]; rfl
    · rw [dictContains_eq_isSome, dictGet?_dictSet_ne d k k2 v hk, ← dictContains_eq_isSome]
      exact h

theorem dictGet?_addDef_preserve (k k2 : String) (v w : PyVal) (d : List (String × PyVal))
    (h : dictGet? d k2 = some w) : dictGet? (addDef k v d) k2 = some w := by
  unfold addDef
  by_cases hc : dictContains d k
  · rw [if_pos hc]; exact h
  · rw [if_neg hc]
    by_cases hk : k2 = k
    · subst hk
      rw [dictContains_eq_isSome, h] at hc
      simp at hc
    · rw [dictGet?_dictSet_ne d k k2 v hk]
      exact h

theorem dictGet?_addDef_absent (k : String) (v : PyVal) (d : List (String × PyVal))
    (h : dictContains d k = false) : dictGet? (addDef k v d) k = some v := by
  unfold addDef
  rw [if_neg (by simp [h]), dictGet?_dictSet_self]

theorem dictContains_addDef_ne (k k2 : String) (v : PyVal) (d : List (String × PyVal))
    (h : k2 ≠ k) : dictContains (addDef k v d) k2 = dictContains d k2 := by
  unfold addDef
  by_cases hc : dictContains d k
  · rw [if_pos hc]
  · rw [if_neg hc, dictContains_eq_isSome, dictGet?_dictSet_ne d k k2 v h,
      ← dictContains_eq_isSome]

end DictLemmas

namespace Director

theorem processScene_dict (n i : Nat) (d : List (String × PyVal)) :
    processScene n i (.dict d) = .ok (.dict (normScene n i d)) := by
  unfold processScene normScene
  rw [defaultStep_dict]
  rw [show ∀ (x : PyVal) (f : PyVal → Except PyErr PyVal), Except.ok x >>= f = f x
    from fun _ _ => rfl, defaultStep_dict]
  rw [show ∀ (x : PyVal) (f : PyVal → Except PyErr PyVal), Except.ok x >>= f = f x
    from fun _ _ => rfl, defaultStep_dict]
  rw [show ∀ (x : PyVal) (f : PyVal → Except PyErr PyVal), Except.ok x >>= f = f x
    from fun _ _ => rfl, defaultStep_dict]
  rw [show ∀ (x : PyVal) (f : PyVal → Except PyErr PyVal), Except.ok x >>= f = f x
    from fun _ _ => rfl, defaultStep_dict]
  rw [show ∀ (x : PyVal) (f : PyVal → Except PyErr PyVal), Except.ok x >>= f = f x
    from fun _ _ => rfl, defaultStep_dict]

theorem processList_dicts (n : Nat) (ds : List (List (String × PyVal))) :
    ∀ i, processList (processScene n) i (ds.map .dict) =
      .ok ((normListFrom n i ds).map .dict) := by
  induction ds with
  | nil => intro i; rfl
  | cons d rest ih =>
      intro i
      simp only [List.map_cons, processList, processScene_dict, normListFrom]
      rw [show ∀ (x : PyVal) (f : PyVal → Except PyErr (List PyVal)),
        Except.ok x >>= f = f x from fun _ _ => rfl]
      rw [ih (i + 1)]
      rfl

theorem post_process_scenes_dicts (ds : List (List (String × PyVal))) :
    post_process_scenes (.list (ds.map .dict)) = .ok (.list ((normList ds).map .dict)) := by
  unfold post_process_scenes normList
  rw [show pyIter (.list (ds.map .dict)) = .ok (ds.map .dict) from rfl]
  rw [show ∀ (x : List PyVal) (f : List PyVal → Except PyErr PyVal),
    Except.ok x >>= f = f x from fun _ _ => rfl]
  rw [List.length_map, processList_dicts]
  rfl

theorem normListFrom_length (n : Nat) : ∀ (ds : List (List (String × PyVal))) (i : Nat),
    (normListFrom n i ds).length = ds.length := by
  intro ds
  induction ds with
  | nil => intro i; rfl
  | cons d rest ih => intro i; simp [normListFrom, ih]

theorem normListFrom_getElem (n : Nat) :
    ∀ (ds : List (List (String × PyVal))) (i j : Nat) (h : j < ds.length),
    (normListFrom n i ds).get ⟨j, by rw [normListFrom_length]; exact h⟩ =
      normScene n (i + j) (ds.get ⟨j, h⟩) := by
  intro ds
  induction ds with
  | nil => intro i j h; exact absurd h (Nat.not_lt_zero j)
  | cons d rest ih =>
      intro i j h
      cases j with
      | zero => rfl
      | succ j2 =>
          have h2 : j2 < rest.length := Nat.lt_of_succ_lt_succ h
          have := ih (i + 1) j2 h2
          simp only [normListFrom, List.get_cons_succ, List.length_cons]
          rw [show i + (j2 + 1) = (i + 1) + j2 by omega]
          exact this

section NormSceneProps

theorem normScene_contains_six (n i : Nat) (d : List (String × PyVal)) :
    ∀ k ∈ sixDefaulted, dictContains (normScene n i d) k = true := by
  intro k hk
  unfold sixDefaulted at hk
  unfold normScene
  simp only [List.mem_cons, List.not_mem_nil, or_false] at hk
  rcases hk with h | h | h | h | h | h <;> subst h
  · exact dictContains_addDef_mono _ _ _ _ (dictContains_addDef_mono _ _ _ _
      (dictContains_addDef_mono _ _ _ _ (dictContains_addDef_mono _ _ _ _
        (dictContains_addDef_mono _ _ _ _ (dictContains_addDef_self _ _ _)))))
  · exact dictContains_addDef_mono _ _ _ _ (dictContains_addDef_mono _ _ _ _
      (dictContains_addDef_mono _ _ _ _ (dictContains_addDef_mono _ _ _ _
        (dictContains_addDef_self _ _ _))))
  · exact dictContains_addDef_mono _ _ _ _ (dictContains_addDef_mono _ _ _ _
      (dictContains_addDef_mono _ _ _ _ (dictContains_addDef_self _ _ _)))
  · exact dictContains_addDef_mono _ _ _ _ (dictContains_addDef_mono _ _ _ _
      (dictContains_addDef_self _ _ _))
  · exact dictContains_addDef_mono _ _ _ _ (dictContains_addDef_self _ _ _)
  · exact dictContains_addDef_self _ _ _

theorem normScene_preserve (n i : Nat) (d : List (String × PyVal)) (k : String)
    (v : PyVal) (h : dictGet? d k = some v) : dictGet? (normScene n i d) k = some v := by
  unfold normScene
  exact dictGet?_addDef_preserve _ _ _ _ _ (dictGet?_addDef_preserve _ _ _ _ _
    (dictGet?_addDef_preserve _ _ _ _ _ (dictGet?_addDef_preserve _ _ _ _ _
      (dictGet?_addDef_preserve _ _ _ _ _ (dictGet?_addDef_preserve _ _ _ _ _ h)))))

theorem normScene_default_scene_number (n i : Nat) (d : List (String × PyVal))
    (h : dictContains d "scene_number" = false) :
    dictGet? (normScene n i d) "scene_number" = some (.num ((i + 1 : ℕ) : ℚ)) := by
  unfold normScene
  have h1 := dictGet?_addDef_absent "scene_number" (.num ((i + 1 : ℕ) : ℚ)) d h
  exact dictGet?_addDef_preserve _ _ _ _ _ (dictGet?_addDef_preserve _ _ _ _ _
    (dictGet?_addDef_preserve _ _ _ _ _ (dictGet?_addDef_preserve _ _ _ _ _
      (dictGet?_addDef_preserve _ _ _ _ _ h1))))

theorem normScene_default_duration (n i : Nat) (d : List (String × PyVal))
    (h : dictContains d "duration_seconds" = false) :
    dictGet? (normScene n i d) "duration_seconds" = some (.num 5) := by
  unfold normScene
  have hne : ("duration_seconds" : String) ≠ "scene_number" := by decide
  have h0 : dictContains (addDef "scene_number" (.num ((i + 1 : ℕ) : ℚ)) d)
      "duration_seconds" = false := by
    rw [dictContains_addDef_ne _ _ _ _ hne]; exact h
  have h1 := dictGet?_addDef_absent "duration_seconds" (.num 5) _ h0
  exact dictGet?_addDef_preserve _ _ _ _ _ (dictGet?_addDef_preserve _ _ _ _ _
    (dictGet?_addDef_preserve _ _ _ _ _ (dictGet?_addDef_preserve _ _ _ _ _ h1)))

theorem normScene_default_transition (n i : Nat) (d : List (String × PyVal))
    (h : dictContains d "transition_type" = false) :
    dictGet? (normScene n i d) "transition_type" =
      some (.str (if (i : ℤ) < (n : ℤ) - 1 then "cut" else "fade")) := by
  unfold normScene
  have h0 : dictContains (addDef "duration_seconds" (.num 5)
      (addDef "scene_number" (.num ((i + 1 : ℕ) : ℚ)) d)) "transition_type" = false := by
    rw [dictContains_addDef_ne _ _ _ _ (by decide),
      dictContains_addDef_ne _ _ _ _ (by decide)]
    exact h
  have h1 := dictGet?_addDef_absent "transition_type"
    (.str (if (i : ℤ) < (n : ℤ) - 1 then "cut" else "fade")) _ h0
  exact dictGet?_addDef_preserve _ _ _ _ _ (dictGet?_addDef_preserve _ _ _ _ _
    (dictGet?_addDef_preserve _ _ _ _ _ h1))

theorem normScene_default_motion (n i : Nat) (d : List (String × PyVal))
    (h : dictContains d "motion_intensity" = false) :
    dictGet? (normScene n i d) "motion_intensity" = some (.str "medium") := by
  unfold normScene
  have h0 : dictContains (addDef "transition_type"
      (.str (if (i : ℤ) < (n : ℤ) - 1 then "cut" else "fade"))
      (addDef "duration_seconds" (.num 5)
        (addDef "scene_number" (.num ((i + 1 : ℕ) : ℚ)) d))) "motion_intensity" = false := by
    rw [dictContains_addDef_ne _ _ _ _ (by decide),
      dictContains_addDef_ne _ _ _ _ (by decide),
      dictContains_addDef_ne _ _ _ _ (by decide)]
    exact h
  have h1 := dictGet?_addDef_absent "motion_intensity" (.str "medium") _ h0
  exact dictGet?_addDef_preserve _ _ _ _ _ (dictGet?_addDef_preserve _ _ _ _ _ h1)

theorem normScene_default_key_elements (n i : Nat) (d : List (String × PyVal))
    (h : dictContains d "key_elements" = false) :
    dictGet? (normScene n i d) "key_elements" = some (.list []) := by
  unfold normScene
  have h0 : dictContains (addDef "motion_intensity" (.str "medium")
      (addDef "transition_type"
        (.str (if (i : ℤ) < (n : ℤ) - 1 then "cut" else "fade"))
        (addDef "duration_seconds" (.num 5)
          (addDef "scene_number" (.num ((i + 1 : ℕ) : ℚ)) d)))) "key_elements" = false := by
    rw [dictContains_addDef_ne _ _ _ _ (by decide),
      dictContains_addDef_ne _ _ _ _ (by decide),
      dictContains_addDef_ne _ _ _ _ (by decide),
      dictContains_addDef_ne _ _ _ _ (by decide)]
    exact h
  have h1 := dictGet?_addDef_absent "key_elements" (.list []) _ h0
  exact dictGet?_addDef_preserve _ _ _ _ _ h1

theorem normScene_default_audio (n i : Nat) (d : List (String × PyVal))
    (h : dictContains d "audio_suggestion" = false) :
    dictGet? (normScene n i d) "audio_suggestion" = some (.str "Ambient atmosphere") := by
  unfold normScene
  have h0 : dictContains (addDef "key_elements" (.list [])
      (addDef "motion_intensity" (.str "medium")
        (addDef "transition_type"
          (.str (if (i : ℤ) < (n : ℤ) - 1 then "cut" else "fade"))
          (addDef "duration_seconds" (.num 5)
            (addDef "scene_number" (.num ((i + 1 : ℕ) : ℚ)) d))))) "audio_suggestion" = false := by
    rw [dictContains_addDef_ne _ _ _ _ (by decide),
      dictContains_addDef_ne _ _ _ _ (by decide),
      dictContains_addDef_ne _ _ _ _ (by decide),
      dictContains_addDef_ne _ _ _ _ (by decide),
      dictContains_addDef_ne _ _ _ _ (by decide)]
    exact h
  have h1 := dictGet?_addDef_absent "audio_suggestion" (.str "Ambient atmosphere") _ h0
  exact h1

end NormSceneProps

end Director

/-- Claim C1: as frozen, the claim fails on the refactored normalizer
(`src/director.py`), which defaults only `scene_number` and
`duration_seconds`: normalizing `[{}]` yields a record with no
`transition_type`, `motion_intensity`, `key_elements` or `audio_suggestion`. -/
theorem src_post_process_scenes_missing_defaults :
    SrcDirector.post_process_scenes (.list [.dict []]) =
      .ok (.list [.dict [("scene_number", .num 1), ("duration_seconds", .num 5)]]) ∧
    allScenesHaveFields
      (.list [.dict [("scene_number", .num 1), ("duration_seconds", .num 5)]])
      Director.sixDefaulted = false := by
  exact ⟨rfl, rfl⟩

/-- Claim C1 (amended to the root `director.py` normalizer, the one `main.py` uses):
for every raw sequence of N scene records, `_post_process_scenes` returns a
sequence of length N whose records carry all six defaulted fields —
`scene_number` (index+1 when absent), `duration_seconds` (5 when absent),
`transition_type` (`"cut"` when absent and not last, `"fade"` when absent and
last), `motion_intensity` (`"medium"` when absent), `key_elements` (`[]` when
absent), `audio_suggestion` (`"Ambient atmosphere"` when absent) — and leaves
every field already present unchanged. -/
theorem post_process_scenes_six_defaults (xs : List (List (String × PyVal))) :
    Director.post_process_scenes (.list (xs.map .dict)) =
      .ok (.list ((Director.normList xs).map .dict)) ∧
    (Director.normList xs).length = xs.length ∧
    ∀ i, (h : i < xs.length) → (h2 : i < (Director.normList xs).length) →
      (∀ k ∈ Director.sixDefaulted,
        dictContains ((Director.normList xs).get ⟨i, h2⟩) k = true) ∧
      (∀ k v, dictGet? (xs.get ⟨i, h⟩) k = some v →
        dictGet? ((Director.normList xs).get ⟨i, h2⟩) k = some v) ∧
      (dictContains (xs.get ⟨i, h⟩) "scene_number" = false →
        dictGet? ((Director.normList xs).get ⟨i, h2⟩) "scene_number" =
          some (.num ((i + 1 : ℕ) : ℚ))) ∧
      (dictContains (xs.get ⟨i, h⟩) "duration_seconds" = false →
        dictGet? ((Director.normList xs).get ⟨i, h2⟩) "duration_seconds" =
          some (.num 5)) ∧
      (dictContains (xs.get ⟨i, h⟩) "transition_type" = false →
        dictGet? ((Director.normList xs).get ⟨i, h2⟩) "transition_type" =
          some (.str (if i + 1 < xs.length then "cut" else "fade"))) ∧
      (dictContains (xs.get ⟨i, h⟩) "motion_intensity" = false →
        dictGet? ((Director.normList xs).get ⟨i, h2⟩) "motion_intensity" =
          some (.str "medium")) ∧
      (dictContains (xs.get ⟨i, h⟩) "key_elements" = false →
        dictGet? ((Director.normList xs).get ⟨i, h2⟩) "key_elements" =
          some (.list [])) ∧
      (dictContains (xs.get ⟨i, h⟩) "audio_suggestion" = false →
        dictGet? ((Director.normList xs).get ⟨i, h2⟩) "audio_suggestion" =
          some (.str "Ambient atmosphere")) := by
  refine ⟨Director.post_process_scenes_dicts xs,
    by rw [Director.normList, Director.normListFrom_length], ?_⟩
  intro i h h2
  have hget : (Director.normList xs).get ⟨i, h2⟩ =
      Director.normScene xs.length i (xs.get ⟨i, h⟩) := by
    have hg := Director.normListFrom_getElem xs.length xs 0 i h
    simpa [Director.normList, Nat.zero_add] using hg
  rw [hget]
  have hiff : ((i : ℤ) < (xs.length : ℤ) - 1) ↔ (i + 1 < xs.length) := by omega
  refine ⟨Director.normScene_contains_six _ _ _,
    fun k v hv => Director.normScene_preserve _ _ _ _ _ hv,
    fun ha => Director.normScene_default_scene_number _ _ _ ha,
    fun hb => Director.normScene_default_duration _ _ _ hb,
    fun hc => ?_,
    fun hd => Director.normScene_default_motion _ _ _ hd,
    fun he => Director.normScene_default_key_elements _ _ _ he,
    fun hf => Director.normScene_default_audio _ _ _ hf⟩
  rw [Director.normScene_default_transition _ _ _ hc, if_congr hiff rfl rfl]

/-- Witness for C1: the amended theorem applied to the concrete raw sequence
`[{"visual_prompt": "x"}]`, whose single (last) scene gets `transition_type`
`"fade"` and keeps its `visual_prompt`. -/
theorem post_process_scenes_six_defaults_witness :
    Director.post_process_scenes (.list [.dict [("visual_prompt", .str "x")]]) =
      .ok (.list ((Director.normList [[("visual_prompt", .str "x")]]).map .dict)) ∧
    dictGet? ((Director.normList [[("visual_prompt", .str "x")]]).get
        ⟨0, by decide⟩) "transition_type" = some (.str "fade") ∧
    dictGet? ((Director.normList [[("visual_prompt", .str "x")]]).get
        ⟨0, by decide⟩) "visual_prompt" = some (.str "x") := by
  have h := post_process_scenes_six_defaults [[("visual_prompt", .str "x")]]
  have h3 := h.2.2 0 (by decide) (by decide)
  refine ⟨h.1, ?_, h3.2.1 "visual_prompt" (.str "x") (by rfl)⟩
  have ht := h3.2.2.2.2.1 (by rfl)
  simpa using ht

/-- Claim C2: the function `process_script` never raises to its caller — the model is a total
function — and in both director variants: with no backend client configured
it returns the fixed fallback sequence whatever the backend would have done
(so without any network call), any exception during dispatch or decoding
yields the fallback, any exception during normalization yields the fallback,
and only a fully successful dispatch-plus-normalization returns the
normalized scenes. -/
theorem process_script_never_raises :
    (∀ d, Director.process_script false d = Director.mock_response) ∧
    (∀ e, Director.process_script true (.error e) = Director.mock_response) ∧
    (∀ raw e, Director.post_process_scenes raw = .error e →
      Director.process_script true (.ok raw) = Director.mock_response) ∧
    (∀ raw s, Director.post_process_scenes raw = .ok s →
      Director.process_script true (.ok raw) = s) ∧
    (∀ d, SrcDirector.process_script false d = SrcDirector.mock_response) ∧
    (∀ e, SrcDirector.process_script true (.error e) = SrcDirector.mock_response) ∧
    (∀ raw e, SrcDirector.post_process_scenes raw = .error e →
      SrcDirector.process_script true (.ok raw) = SrcDirector.mock_response) ∧
    (∀ raw s, SrcDirector.post_process_scenes raw = .ok s →
      SrcDirector.process_script true (.ok raw) = s) := by
  refine ⟨fun d => rfl, fun e => rfl, ?_, ?_, fun d => rfl, fun e => rfl, ?_, ?_⟩
  · intro raw e h
    have hd : Director.process_script true (.ok raw) =
        match Director.post_process_scenes raw with
        | .ok s => s
        | .error _ => Director.mock_response := rfl
    rw [hd, h]
  · intro raw s h
    have hd : Director.process_script true (.ok raw) =
        match Director.post_process_scenes raw with
        | .ok s => s
        | .error _ => Director.mock_response := rfl
    rw [hd, h]
  · intro raw e h
    have hd : SrcDirector.process_script true (.ok raw) =
        match SrcDirector.post_process_scenes raw with
        | .ok s => s
        | .error _ => SrcDirector.mock_response := rfl
    rw [hd, h]
  · intro raw s h
    have hd : SrcDirector.process_script true (.ok raw) =
        match SrcDirector.post_process_scenes raw with
        | .ok s => s
        | .error _ => SrcDirector.mock_response := rfl
    rw [hd, h]

/-- Witness for C2: a backend result whose decoding produced a bare string
(respectively a bare number) makes normalization raise, and `process_script`
returns the fallback in both variants. -/
theorem process_script_never_raises_witness :
    Director.process_script true (.ok (.str "oops")) = Director.mock_response ∧
    SrcDirector.process_script true (.ok (.num 3)) = SrcDirector.mock_response := by
  exact ⟨process_script_never_raises.2.2.1 (.str "oops") .typeError rfl,
    process_script_never_raises.2.2.2.2.2.2.1 (.num 3) .typeError rfl⟩

/-- Claim C3: as frozen, the claim fails on the refactored fallback
(`src/director.py._mock_response`), whose single record carries only
`scene_number`, `narrative_beat`, `visual_prompt` and `duration_seconds` —
no `transition_type`, `motion_intensity`, `key_elements` or
`audio_suggestion`. -/
theorem src_mock_response_missing_fields :
    allScenesHaveFields SrcDirector.mock_response requiredFields = false := by
  rfl

/-- Claim C3 (amended to the root `director.py` fallback, the one `main.py` uses):
every record of the root `_mock_response` literal carries all seven fields the
Statistics Calculator and Exporter consume; the refactored variant's fallback
records carry only `scene_number`, `narrative_beat`, `visual_prompt` and
`duration_seconds`. -/
theorem mock_response_schema_complete :
    allScenesHaveFields Director.mock_response requiredFields = true ∧
    allScenesHaveFields SrcDirector.mock_response
      ["scene_number", "narrative_beat", "visual_prompt", "duration_seconds"] = true := by
  exact ⟨rfl, rfl⟩

/-- Claim C6: as frozen, the claim fails: a mapping without a `scenes` key is not
rejected by normalization — the empty mapping comes back unchanged, without
any error, from both normalizer variants (the loop body never runs). -/
theorem post_process_scenes_accepts_empty_dict :
    Director.post_process_scenes (.dict []) = .ok (.dict []) ∧
    SrcDirector.post_process_scenes (.dict []) = .ok (.dict []) := by
  exact ⟨rfl, rfl⟩

/-- Claim C7: as frozen, the claim fails on the root normalizer, which never
unwraps a `scenes` envelope: it iterates the mapping's keys and raises a
TypeError, so the two normalizations differ. -/
theorem root_post_process_scenes_no_unwrap :
    Director.post_process_scenes (.dict [("scenes", .list [.dict []])]) ≠
      Director.post_process_scenes (.list [.dict []]) := by
  have h1 : Director.post_process_scenes (.dict [("scenes", .list [.dict []])]) =
      .error .typeError := rfl
  have h2 : Director.post_process_scenes (.list [.dict []]) =
      .ok (.list [.dict
        [("scene_number", .num 1), ("duration_seconds", .num 5),
         ("transition_type", .str "fade"), ("motion_intensity", .str "medium"),
         ("key_elements", .list []),
         ("audio_suggestion", .str "Ambient atmosphere")]]) := rfl
  rw [h1, h2]
  exact fun h => Except.noConfusion h

/-- Claim C7 (amended to where unwrapping lives): the refactored
`src/director.py` normalizer produces identical output for the envelope
`{"scenes": L}` and the bare list `L`; in the root director the unwrapping
happens in the Groq decode path instead, which maps the envelope to the bare
list before normalization. -/
theorem unwrap_envelope_equivalence (xs : List PyVal) :
    SrcDirector.post_process_scenes (.dict [("scenes", .list xs)]) =
      SrcDirector.post_process_scenes (.list xs) ∧
    Director.groq_decode (.dict [("scenes", .list xs)]) = .ok (.list xs) := by
  exact ⟨rfl, rfl⟩

theorem strIn_scene_number_singleton (c : Char) :
    strIn "scene_number" (String.singleton c) = false := by
  have hdata : (String.singleton c).data = [c] := rfl
  simp only [strIn, hdata]
  simp only [List.any_eq_false, List.mem_range, decide_eq_false_iff_not,
    List.isPrefixOf_iff_prefix]
  intro x hx h
  have hlen := h.length_le
  simp only [List.length_drop, List.length_cons, List.length_nil] at hlen
  omega

theorem processScene_singleton_err (n i : Nat) (c : Char) :
    Director.processScene n i (.str (String.singleton c)) = .error .typeError := by
  have h1 : defaultStep "scene_number" (.num ((i + 1 : ℕ) : ℚ)) (.str (String.singleton c)) =
      .error .typeError := by
    unfold defaultStep
    rw [show pyContainsKey "scene_number" (.str (String.singleton c)) =
      .ok (strIn "scene_number" (String.singleton c)) from rfl,
      strIn_scene_number_singleton]
    rfl
  unfold Director.processScene
  rw [h1]
  rfl

theorem src_processScene_singleton_err (i : Nat) (c : Char) :
    SrcDirector.processScene i (.str (String.singleton c)) = .error .typeError := by
  have h1 : defaultStep "scene_number" (.num ((i + 1 : ℕ) : ℚ)) (.str (String.singleton c)) =
      .error .typeError := by
    unfold defaultStep
    rw [show pyContainsKey "scene_number" (.str (String.singleton c)) =
      .ok (strIn "scene_number" (String.singleton c)) from rfl,
      strIn_scene_number_singleton]
    rfl
  unfold SrcDirector.processScene
  rw [h1]
  rfl

theorem processList_cons_error (f : Nat → PyVal → Except PyErr PyVal) (i : Nat)
    (x : PyVal) (xs : List PyVal) (e : PyErr) (h : f i x = .error e) :
    processList f i (x :: xs) = .error e := by
  rw [show processList f i (x :: xs) =
    (f i x >>= fun y => processList f (i + 1) xs >>= fun ys => pure (y :: ys)) from rfl, h]
  rfl

/-- Claim C6 (amended): normalization does raise on non-empty malformed inputs — a
non-empty bare string raises a TypeError in both normalizer variants — and
the explicit `UnexpectedFormat`-style `ValueError` lives in the Groq decode
path, which rejects any mapping lacking a `scenes` key and any decoded value
that is neither mapping nor list; but an empty mapping without `scenes` (the
counterexample) passes through normalization silently. -/
theorem normalization_rejects_malformed (s : String) (kvs : List (String × PyVal))
    (hs : s ≠ "") (hk : dictContains kvs "scenes" = false) :
    Director.post_process_scenes (.str s) = .error .typeError ∧
    SrcDirector.post_process_scenes (.str s) = .error .typeError ∧
    Director.groq_decode (.dict kvs) = .error .valueError ∧
    (∀ s2 : String, Director.groq_decode (.str s2) = .error .valueError) ∧
    (∀ q : ℚ, Director.groq_decode (.num q) = .error .valueError) := by
  obtain ⟨data⟩ := s
  cases data with
  | nil => exact absurd rfl hs
  | cons c cs =>
      refine ⟨?_, ?_, ?_, fun s2 => rfl, fun q => rfl⟩
      · have hd : Director.post_process_scenes (.str ⟨c :: cs⟩) =
            ((processList (Director.processScene
                (((c :: cs).map (fun ch => PyVal.str (String.singleton ch))).length)) 0
              ((c :: cs).map (fun ch => PyVal.str (String.singleton ch)))) >>=
              fun items2 => pure (rebuild (.str ⟨c :: cs⟩) items2)) := rfl
        rw [hd]
        simp only [List.map_cons]
        rw [processList_cons_error
          (Director.processScene
            (PyVal.str (String.singleton c) ::
              List.map (fun ch => PyVal.str (String.singleton ch)) cs).length)
          0 (PyVal.str (String.singleton c))
          (List.map (fun ch => PyVal.str (String.singleton ch)) cs) .typeError
          (processScene_singleton_err _ 0 c)]
        rfl
      · have hd : SrcDirector.post_process_scenes (.str ⟨c :: cs⟩) =
            ((processList (fun i s3 => SrcDirector.processScene i s3) 0
              ((c :: cs).map (fun ch => PyVal.str (String.singleton ch)))) >>=
              fun items2 => pure (rebuild (.str ⟨c :: cs⟩) items2)) := rfl
        rw [hd]
        simp only [List.map_cons]
        rw [processList_cons_error (fun i s3 => SrcDirector.processScene i s3)
          0 (PyVal.str (String.singleton c))
          (List.map (fun ch => PyVal.str (String.singleton ch)) cs) .typeError
          (src_processScene_singleton_err 0 c)]
        rfl
      · simp [Director.groq_decode, hk]

/-- Witness for C6: the amended theorem at the concrete malformed inputs
`"hello"` (bare string) and `{"data": []}` (mapping without `scenes`). -/
theorem normalization_rejects_malformed_witness :
    Director.post_process_scenes (.str "hello") = .error .typeError ∧
    Director.groq_decode (.dict [("data", .list [])]) = .error .valueError := by
  have h := normalization_rejects_malformed "hello" [("data", .list [])]
    (by decide) rfl
  exact ⟨h.1, h.2.2.1⟩

theorem dictGet?_eq_none_of_not_contains (d : List (String × PyVal)) (k : String)
    (h : dictContains d k = false) : dictGet? d k = Option.none := by
  rw [dictContains_eq_isSome] at h
  exact Option.not_isSome_iff_eq_none.mp (by rw [h]; exact Bool.false_ne_true)

/-- Claim C4: the function `calculate_statistics` on the empty sequence returns the empty result
rather than an error, and on any non-empty sequence its result satisfies
`total_scenes = length`, `total_duration_seconds = average_scene_duration *
total_scenes` (exactly, in rational arithmetic), and
`total_duration_minutes = total_duration_seconds / 60`. -/
theorem calculate_statistics_consistent (scenes : List Scene)
    (stats : Exporters.Stats) (hne : scenes ≠ [])
    (h : Exporters.calculate_statistics scenes = .ok (some stats)) :
    Exporters.calculate_statistics [] = .ok Option.none ∧
    stats.total_scenes = scenes.length ∧
    stats.total_duration_seconds =
      stats.average_scene_duration * (stats.total_scenes : ℚ) ∧
    stats.total_duration_minutes = stats.total_duration_seconds / 60 := by
  refine ⟨rfl, ?_⟩
  unfold Exporters.calculate_statistics at h
  rw [if_neg (by simpa [List.isEmpty_iff] using hne)] at h
  cases hsum : Exporters.sumDurations scenes with
  | error e =>
      rw [hsum] at h
      exact Except.noConfusion h
  | ok total =>
      rw [hsum] at h
      cases hdl : Exporters.distLoop scenes [] [] with
      | error e =>
          rw [hdl] at h
          exact Except.noConfusion h
      | ok md =>
          obtain ⟨motion, transition⟩ := md
          rw [hdl] at h
          have hstats : stats =
              { total_scenes := scenes.length
                total_duration_seconds := total
                total_duration_minutes := total / 60
                average_scene_duration := total / (scenes.length : ℚ)
                motion_distribution := motion
                transition_distribution := transition } := by
            have h2 : (Except.ok (some
                ({ total_scenes := scenes.length
                   total_duration_seconds := total
                   total_duration_minutes := total / 60
                   average_scene_duration := total / (scenes.length : ℚ)
                   motion_distribution := motion
                   transition_distribution := transition } : Exporters.Stats)) :
                  Except PyErr (Option Exporters.Stats)) =
                .ok (some stats) := h
            injection h2 with h3
            exact (Option.some.inj h3).symm
          subst hstats
          have hlen : ((scenes.length : ℕ) : ℚ) ≠ 0 :=
            Nat.cast_ne_zero.mpr (fun hz => hne (List.length_eq_zero.mp hz))
          exact ⟨rfl, by field_simp, rfl⟩

/-- Witness for C4: the theorem applied to the concrete two-scene sequence
`[{"duration_seconds": 5}, {}]` (the second scene's duration defaulting
to 5), whose statistics satisfy the claimed identities. -/
theorem calculate_statistics_consistent_witness :
    Exporters.calculate_statistics [[("duration_seconds", .num 5)], []] =
      .ok (some { total_scenes := 2
                  total_duration_seconds := 5 + (5 + 0)
                  total_duration_minutes := (5 + (5 + 0)) / 60
                  average_scene_duration := (5 + (5 + 0)) / (2 : ℚ)
                  motion_distribution := [(.str "unknown", 2)]
                  transition_distribution := [(.str "unknown", 2)] }) ∧
    (5 + (5 + 0) : ℚ) = (5 + (5 + 0)) / (2 : ℚ) *
      (({ total_scenes := 2
          total_duration_seconds := 5 + (5 + 0)
          total_duration_minutes := (5 + (5 + 0)) / 60
          average_scene_duration := (5 + (5 + 0)) / (2 : ℚ)
          motion_distribution := [(.str "unknown", 2)]
          transition_distribution := [(.str "unknown", 2)] } : Exporters.Stats).total_scenes : ℚ) := by
  have h := calculate_statistics_consistent [[("duration_seconds", .num 5)], []]
    { total_scenes := 2
      total_duration_seconds := 5 + (5 + 0)
      total_duration_minutes := (5 + (5 + 0)) / 60
      average_scene_duration := (5 + (5 + 0)) / (2 : ℚ)
      motion_distribution := [(.str "unknown", 2)]
      transition_distribution := [(.str "unknown", 2)] }
    (List.cons_ne_nil _ _) rfl
  exact ⟨rfl, h.2.2.1⟩

/-- Claim C5: the structured (JSON) export embeds the scene sequence verbatim under
the `"scenes"` key, so re-loading the produced document and reading that key
yields a scene sequence equal field-for-field to the exported one, whatever
metadata was attached (the metadata wrapper lives under the separate
`"metadata"` key and cannot shadow it). Serialization to text and re-parsing
is Python's `json` codec, which is faithful on these values and external to
this model. -/
theorem to_json_roundtrip (scenes : List Scene) (metadata : List (String × PyVal))
    (now : String) (doc : PyVal)
    (h : Exporters.to_json_doc scenes metadata now = .ok doc) :
    Exporters.loadScenes doc = some (.list (scenes.map .dict)) := by
  unfold Exporters.to_json_doc at h
  cases hsum : Exporters.sumDurations scenes with
  | error e =>
      rw [hsum] at h
      exact Except.noConfusion h
  | ok total =>
      rw [hsum] at h
      have h2 : (Except.ok (PyVal.dict
          [("metadata", .dict (Exporters.dictMerge
              [("generated_at", .str now),
               ("total_scenes", .num (scenes.length : ℚ)),
               ("total_duration_seconds", .num total)] metadata)),
           ("scenes", .list (scenes.map .dict))]) :
            Except PyErr PyVal) = .ok doc := h
      injection h2 with h3
      rw [← h3]
      rfl

/-- Witness for C5: the theorem applied to the one-scene sequence
`[{"a": "b"}]` with metadata `{"model": "m"}` and timestamp `"t"`. -/
theorem to_json_roundtrip_witness :
    Exporters.to_json_doc [[("a", .str "b")]] [("model", .str "m")] "t" =
      .ok (.dict
        [("metadata", .dict (Exporters.dictMerge
            [("generated_at", .str "t"),
             ("total_scenes", .num 1),
             ("total_duration_seconds", .num (5 + 0))] [("model", .str "m")])),
         ("scenes", .list [.dict [("a", .str "b")]])]) ∧
    Exporters.loadScenes (.dict
        [("metadata", .dict (Exporters.dictMerge
            [("generated_at", .str "t"),
             ("total_scenes", .num 1),
             ("total_duration_seconds", .num (5 + 0))] [("model", .str "m")])),
         ("scenes", .list [.dict [("a", .str "b")]])]) =
      some (.list [.dict [("a", .str "b")]]) := by
  constructor
  · rfl
  · have h := to_json_roundtrip [[("a", .str "b")]] [("model", .str "m")] "t"
      (.dict
        [("metadata", .dict (Exporters.dictMerge
            [("generated_at", .str "t"),
             ("total_scenes", .num 1),
             ("total_duration_seconds", .num (5 + 0))] [("model", .str "m")])),
         ("scenes", .list [.dict [("a", .str "b")]])]) rfl
    exact h

section SortLemmas

theorem charListLeb_total : ∀ a b : List Char,
    charListLeb a b = true ∨ charListLeb b a = true := by
  intro a
  induction a with
  | nil => intro b; left; cases b <;> rfl
  | cons x xs ih =>
      intro b
      cases b with
      | nil => right; rfl
      | cons y ys =>
          by_cases h1 : x.val.toNat < y.val.toNat
          · left; simp [charListLeb, h1]
          · by_cases h2 : y.val.toNat < x.val.toNat
            · right; simp [charListLeb, h2]
            · rcases ih ys with h | h
              · left; simp [charListLeb, h1, h2, h]
              · right; simp [charListLeb, h1, h2, h]

theorem charListLeb_trans : ∀ a b c : List Char,
    charListLeb a b = true → charListLeb b c = true → charListLeb a c = true := by
  intro a
  induction a with
  | nil => intro b c _ _; cases c <;> rfl
  | cons x xs ih =>
      intro b c hab hbc
      cases b with
      | nil => simp [charListLeb] at hab
      | cons y ys =>
          cases c with
          | nil => simp [charListLeb] at hbc
          | cons z zs =>
              by_cases hxy : x.val.toNat < y.val.toNat
              · by_cases hyz : y.val.toNat < z.val.toNat
                · have hxz : x.val.toNat < z.val.toNat := by omega
                  simp [charListLeb, hxz]
                · by_cases hzy : z.val.toNat < y.val.toNat
                  · simp [charListLeb, hyz, hzy] at hbc
                  · have hxz : x.val.toNat < z.val.toNat := by omega
                    simp [charListLeb, hxz]
              · by_cases hyx : y.val.toNat < x.val.toNat
                · simp [charListLeb, hxy, hyx] at hab
                · by_cases hyz : y.val.toNat < z.val.toNat
                  · have hxz : x.val.toNat < z.val.toNat := by omega
                    simp [charListLeb, hxz]
                  · by_cases hzy : z.val.toNat < y.val.toNat
                    · simp [charListLeb, hyz, hzy] at hbc
                    · have hxz1 : ¬ x.val.toNat < z.val.toNat := by omega
                      have hxz2 : ¬ z.val.toNat < x.val.toNat := by omega
                      simp only [charListLeb, hxy, hyx, if_false, if_neg] at hab
                      simp only [charListLeb, hyz, hzy, if_false, if_neg] at hbc
                      simp only [charListLeb, hxz1, hxz2, if_false, if_neg]
                      exact ih ys zs hab hbc

theorem strLe_total : ∀ a b : String, strLe a b ∨ strLe b a := by
  intro a b
  exact charListLeb_total a.data b.data

theorem strLe_trans : ∀ a b c : String, strLe a b → strLe b c → strLe a c := by
  intro a b c
  exact charListLeb_trans a.data b.data c.data

theorem sortStrings_sorted (l : List String) :
    List.Pairwise strLe (sortStrings l) := by
  haveI : IsTotal String strLe := ⟨strLe_total⟩
  haveI : IsTrans String strLe := ⟨strLe_trans⟩
  exact List.sorted_insertionSort strLe l

theorem mem_sortStrings (a : String) (l : List String) :
    a ∈ sortStrings l ↔ a ∈ l :=
  (List.perm_insertionSort strLe l).mem_iff

end SortLemmas

section CsvLemmas

theorem mem_keysUnion (scenes : List Scene) (s : Scene) (kv : String × PyVal)
    (hs : s ∈ scenes) (hkv : kv ∈ s) : kv.1 ∈ Exporters.keysUnion scenes := by
  unfold Exporters.keysUnion
  rw [List.mem_dedup, List.mem_flatMap]
  exact ⟨s, hs, List.mem_map_of_mem _ hkv⟩

theorem mem_fieldnames_of_mem_union (scenes : List Scene) (k : String)
    (h : k ∈ Exporters.keysUnion scenes) : k ∈ Exporters.fieldnames scenes := by
  unfold Exporters.fieldnames
  by_cases ho : k ∈ Exporters.orderedFields
  · apply List.mem_append_left
    rw [List.mem_filter]
    exact ⟨ho, by simpa using h⟩
  · apply List.mem_append_right
    rw [List.mem_filter]
    refine ⟨(mem_sortStrings k _).mpr h, ?_⟩
    simpa using ho

theorem writerow_ok (fns : List String) (s : Scene)
    (h : ∀ kv ∈ s, kv.1 ∈ fns) :
    Exporters.writerow fns (Exporters.convertRow s) =
      .ok (Exporters.rowCells fns s) := by
  have hall : (Exporters.convertRow s).all (fun kv => fns.contains kv.1) = true := by
    rw [List.all_eq_true]
    intro kv hkv
    obtain ⟨kv0, hkv0, rfl⟩ := List.mem_map.mp hkv
    simpa using h kv0 hkv0
  unfold Exporters.writerow Exporters.rowCells
  rw [if_pos hall]

theorem rowsLoop_ok (fns : List String) :
    ∀ scenes : List Scene, (∀ s ∈ scenes, ∀ kv ∈ s, kv.1 ∈ fns) →
    Exporters.rowsLoop fns scenes = .ok (scenes.map (Exporters.rowCells fns)) := by
  intro scenes
  induction scenes with
  | nil => intro _; rfl
  | cons s rest ih =>
      intro h
      have h1 := writerow_ok fns s (fun kv hkv => h s (List.mem_cons_self s rest) kv hkv)
      have h2 := ih (fun s2 hs2 kv hkv => h s2 (List.mem_cons_of_mem _ hs2) kv hkv)
      rw [show Exporters.rowsLoop fns (s :: rest) =
        (Exporters.writerow fns (Exporters.convertRow s) >>= fun r =>
          Exporters.rowsLoop fns rest >>= fun rs => pure (r :: rs)) from rfl, h1]
      rw [show ∀ (x : List String) (f : List String → Except PyErr (List (List String))),
        Except.ok x >>= f = f x from fun _ _ => rfl]
      rw [h2]
      rfl

end CsvLemmas

/-- Claim C8: for every non-empty scene sequence, however heterogeneous the key
sets, the tabular export completes without error with one row per scene; the
header is the preferred fields that occur (in the fixed preferred order)
followed by the remaining keys in ascending code-point (lexicographic) order;
each cell is the converted value of its field — list values flattened to a
comma-joined string — or the empty string when the scene lacks the field
(all of which `rowCells` spells out). -/
theorem to_csv_heterogeneous_ok (scenes : List Scene) (hne : scenes ≠ []) :
    Exporters.to_csv scenes =
      .ok (some (Exporters.fieldnames scenes,
        scenes.map (Exporters.rowCells (Exporters.fieldnames scenes)))) ∧
    (scenes.map (Exporters.rowCells (Exporters.fieldnames scenes))).length
      = scenes.length ∧
    (∀ s ∈ scenes, ∀ kv ∈ s, kv.1 ∈ Exporters.fieldnames scenes) ∧
    Exporters.fieldnames scenes =
      (Exporters.orderedFields.filter
        (fun f => (Exporters.keysUnion scenes).contains f)) ++
      ((sortStrings (Exporters.keysUnion scenes)).filter
        (fun f => !Exporters.orderedFields.contains f)) ∧
    List.Pairwise strLe
      ((sortStrings (Exporters.keysUnion scenes)).filter
        (fun f => !Exporters.orderedFields.contains f)) ∧
    (∀ f, f ∈ (sortStrings (Exporters.keysUnion scenes)).filter
        (fun g => !Exporters.orderedFields.contains g) ↔
      (f ∈ Exporters.keysUnion scenes ∧ f ∉ Exporters.orderedFields)) := by
  have hmem : ∀ s ∈ scenes, ∀ kv ∈ s, kv.1 ∈ Exporters.fieldnames scenes :=
    fun s hs kv hkv =>
      mem_fieldnames_of_mem_union scenes kv.1 (mem_keysUnion scenes s kv hs hkv)
  refine ⟨?_, List.length_map _ _, hmem, rfl, ?_, ?_⟩
  · unfold Exporters.to_csv
    rw [if_neg (by simpa [List.isEmpty_iff] using hne)]
    show (Exporters.rowsLoop (Exporters.fieldnames scenes) scenes >>= fun rows =>
      Except.ok (some (Exporters.fieldnames scenes, rows))) = _
    rw [rowsLoop_ok (Exporters.fieldnames scenes) scenes hmem]
    rfl
  · exact (sortStrings_sorted _).filter _
  · intro f
    rw [List.mem_filter, mem_sortStrings]
    simp

/-- Witness for C8: the theorem applied to the spec's heterogeneous example
`[{"scene_number":1,"duration_seconds":5},
{"scene_number":2,"visual_prompt":"x","key_elements":["a","b"]}]`, which
yields two rows, the second scene's `key_elements` cell rendered `"a, b"`
and its missing `duration_seconds` cell empty. -/
theorem to_csv_heterogeneous_ok_witness :
    Exporters.to_csv
      [[("scene_number", .num 1), ("duration_seconds", .num 5)],
       [("scene_number", .num 2), ("visual_prompt", .str "x"),
        ("key_elements", .list [.str "a", .str "b"])]] =
      .ok (some (["scene_number", "visual_prompt", "duration_seconds", "key_elements"],
        [["1", "", "5", ""], ["2", "x", "", "a, b"]])) := by
  have h := to_csv_heterogeneous_ok
    [[("scene_number", .num 1), ("duration_seconds", .num 5)],
     [("scene_number", .num 2), ("visual_prompt", .str "x"),
      ("key_elements", .list [.str "a", .str "b"])]]
    (List.cons_ne_nil _ _)
  rw [h.1]
  rfl

theorem generate_scene_video_path (hasClient : Bool) (api : Scene → Veo.ApiOutcome)
    (outputDir : String) (s : Scene) (p : String)
    (h : Veo.generate_scene_video hasClient api outputDir s = some p) :
    p = outputDir ++ "/scene_" ++ pyStr (dictGetD s "scene_number" (.num 1)) ++ ".mp4" := by
  unfold Veo.generate_scene_video at h
  cases hasClient with
  | false => exact Option.noConfusion h
  | true =>
      simp only [Bool.not_true, Bool.false_eq_true, if_false] at h
      cases hapi : api s with
      | payload bytes =>
          rw [hapi] at h
          have h2 : (if bytes.isEmpty = true then (Option.none : Option String)
              else some (outputDir ++ "/scene_" ++
                pyStr (dictGetD s "scene_number" (.num 1)) ++ ".mp4")) = some p := h
          by_cases hb : bytes.isEmpty
          · rw [if_pos hb] at h2
            exact Option.noConfusion h2
          · rw [if_neg hb] at h2
            exact (Option.some.inj h2).symm
      | noBytes =>
          rw [hapi] at h
          exact Option.noConfusion h
      | apiError =>
          rw [hapi] at h
          exact Option.noConfusion h

/-- Claim C9: the function `generate_batch` processes the scenes strictly in order — its result
is exactly the in-order filter of the scenes whose per-scene generation
succeeded, each mapped to its output path
`output_dir/scene_<scene_number>.mp4`; a per-scene failure (no client
configured, API exception, no extractable bytes, empty payload) contributes
nothing and the loop continues with the rest. -/
theorem generate_batch_exact (hasClient : Bool) (api : Scene → Veo.ApiOutcome)
    (outputDir : String) (scenes : List Scene) :
    Veo.generate_batch hasClient api outputDir scenes =
      scenes.filterMap (Veo.generate_scene_video hasClient api outputDir) ∧
    Veo.generate_batch hasClient api outputDir scenes =
      (scenes.filter
          (fun s => (Veo.generate_scene_video hasClient api outputDir s).isSome)).map
        (fun s => outputDir ++ "/scene_" ++
          pyStr (dictGetD s "scene_number" (.num 1)) ++ ".mp4") := by
  constructor
  · induction scenes with
    | nil => rfl
    | cons s rest ih =>
        rw [List.filterMap_cons]
        cases hv : Veo.generate_scene_video hasClient api outputDir s with
        | none =>
            rw [show Veo.generate_batch hasClient api outputDir (s :: rest) =
              (match Veo.generate_scene_video hasClient api outputDir s with
                | some path => path :: Veo.generate_batch hasClient api outputDir rest
                | Option.none => Veo.generate_batch hasClient api outputDir rest) from rfl,
              hv]
            exact ih
        | some p =>
            rw [show Veo.generate_batch hasClient api outputDir (s :: rest) =
              (match Veo.generate_scene_video hasClient api outputDir s with
                | some path => path :: Veo.generate_batch hasClient api outputDir rest
                | Option.none => Veo.generate_batch hasClient api outputDir rest) from rfl,
              hv, ih]
  · induction scenes with
    | nil => rfl
    | cons s rest ih =>
        rw [List.filter_cons]
        cases hv : Veo.generate_scene_video hasClient api outputDir s with
        | none =>
            rw [show Veo.generate_batch hasClient api outputDir (s :: rest) =
              (match Veo.generate_scene_video hasClient api outputDir s with
                | some path => path :: Veo.generate_batch hasClient api outputDir rest
                | Option.none => Veo.generate_batch hasClient api outputDir rest) from rfl,
              hv]
            simpa using ih
        | some p =>
            rw [show Veo.generate_batch hasClient api outputDir (s :: rest) =
              (match Veo.generate_scene_video hasClient api outputDir s with
                | some path => path :: Veo.generate_batch hasClient api outputDir rest
                | Option.none => Veo.generate_batch hasClient api outputDir rest) from rfl,
              hv]
            have hp := generate_scene_video_path hasClient api outputDir s p hv
            simp only [hv, Option.isSome_some, if_pos, List.map_cons]
            rw [← hp, ih]

/-- Claim C10: with an empty scene sequence the tabular export returns without
writing any file, the structured export still writes a document whose
metadata block reports `total_scenes = 0` (when the caller metadata does not
itself shadow that key) and whose scene list is empty, and `export_all` still
returns the mapping of all three format names to paths — including the CSV
path — while the files actually written are exactly the JSON and markdown
ones. -/
theorem export_all_empty_scenes (metadata : List (String × PyVal)) (now base : String)
    (hm : dictContains metadata "total_scenes" = false) :
    Exporters.to_csv ([] : List Scene) = .ok Option.none ∧
    Exporters.to_json_doc [] metadata now =
      .ok (.dict [("metadata", .dict (Exporters.dictMerge
        [("generated_at", .str now), ("total_scenes", .num 0),
         ("total_duration_seconds", .num 0)] metadata)),
        ("scenes", .list [])]) ∧
    dictGet? (Exporters.dictMerge
        [("generated_at", .str now), ("total_scenes", .num 0),
         ("total_duration_seconds", .num 0)] metadata) "total_scenes" =
      some (.num 0) ∧
    (∃ doc txt, Exporters.export_all [] metadata now base =
      .ok ([(base ++ ".json", .jsonFile doc), (base ++ ".md", .textFile txt)],
        [("csv", base ++ ".csv"), ("json", base ++ ".json"),
         ("markdown", base ++ ".md")])) := by
  refine ⟨rfl, rfl, ?_, ⟨_, _, rfl⟩⟩
  show some ((dictGet? metadata "total_scenes").getD (.num 0)) = some (.num 0)
  rw [dictGet?_eq_none_of_not_contains metadata "total_scenes" hm]
  rfl

/-- Witness for C10: the theorem applied to metadata `{"model": "m"}`,
timestamp `"t"` and base path `"out"`. -/
theorem export_all_empty_scenes_witness :
    Exporters.to_csv ([] : List Scene) = .ok Option.none ∧
    Exporters.to_json_doc [] [("model", .str "m")] "t" =
      .ok (.dict [("metadata", .dict (Exporters.dictMerge
        [("generated_at", .str "t"), ("total_scenes", .num 0),
         ("total_duration_seconds", .num 0)] [("model", .str "m")])),
        ("scenes", .list [])]) ∧
    dictGet? (Exporters.dictMerge
        [("generated_at", .str "t"), ("total_scenes", .num 0),
         ("total_duration_seconds", .num 0)] [("model", .str "m")])
      "total_scenes" = some (.num 0) := by
  have h := export_all_empty_scenes [("model", .str "m")] "t" "out" rfl
  exact ⟨h.1, h.2.1, h.2.2.1⟩

end VideoGen
